import Mathlib

/-!
Verification of the BBQ pit-controller firmware core against its specification.

The subsystems are shallowly embedded from the C++ sources:
temperatures and percentages (C `float`) are modelled as rationals,
monotonic milliseconds and epoch seconds (C `unsigned long` / `uint32_t`)
as naturals, with explicit wrap-around arithmetic where the source relies
on unsigned overflow.  Configuration constants that live in the firmware's
`config.h` (not part of the sources examined) are kept as parameters.
-/

namespace BBQ

/-! ## Alarm manager (`alarm_manager.cpp`) -/

/-- `AlarmType` from `alarm_manager.h`. -/
inductive AlarmType where
  | none
  | pitHigh
  | pitLow
  | meat1Done
  | meat2Done
deriving DecidableEq, Fintype

/-- The fields of `AlarmManager` that native builds exercise.  The
buzzer-cadence timestamp `_lastBuzzerToggleMs` is compiled out of native
builds and omitted; `MAX_ACTIVE_ALARMS = 4`.  The `_activeAlarms` array
together with `_activeCount` is modelled as the list of its first
`_activeCount` entries. -/
structure AlarmState where
  meat1Target : ℚ
  meat2Target : ℚ
  pitBand : ℚ
  activeAlarms : List AlarmType
  acknowledged : Bool
  enabled : Bool
  buzzerOn : Bool
  meat1Triggered : Bool
  meat2Triggered : Bool
  pitTriggered : Bool

/-- `AlarmManager::AlarmManager()`; the default pit band comes from the
configuration (`ALARM_PIT_BAND_DEFAULT`) and is kept as a parameter. -/
def AlarmState.init (band : ℚ) : AlarmState :=
  { meat1Target := 0
    meat2Target := 0
    pitBand := band
    activeAlarms := []
    acknowledged := false
    enabled := true
    buzzerOn := false
    meat1Triggered := false
    meat2Triggered := false
    pitTriggered := false }

/-- `AlarmManager::isAlarmActive`. -/
def AlarmState.isAlarmActive (s : AlarmState) (t : AlarmType) : Prop :=
  t ∈ s.activeAlarms

instance (s : AlarmState) (t : AlarmType) : Decidable (s.isAlarmActive t) :=
  inferInstanceAs (Decidable (t ∈ s.activeAlarms))

/-- `AlarmManager::addAlarm`: append if not present and not full; a newly
inserted alarm clears the acknowledgment. -/
def AlarmState.addAlarm (s : AlarmState) (t : AlarmType) : AlarmState :=
  if s.isAlarmActive t then s
  else if 4 ≤ s.activeAlarms.length then s
  else { s with activeAlarms := s.activeAlarms ++ [t], acknowledged := false }

/-- `AlarmManager::removeAlarm`: remove the first occurrence and shift. -/
def AlarmState.removeAlarm (s : AlarmState) (t : AlarmType) : AlarmState :=
  { s with activeAlarms := s.activeAlarms.erase t }

/-- `AlarmManager::isAlarming`. -/
def AlarmState.isAlarming (s : AlarmState) : Prop :=
  0 < s.activeAlarms.length ∧ s.acknowledged = false

instance (s : AlarmState) : Decidable s.isAlarming :=
  inferInstanceAs (Decidable (_ ∧ _))

/-- `AlarmManager::setBuzzer` (the pin writes are hardware-only). -/
def AlarmState.setBuzzer (s : AlarmState) (b : Bool) : AlarmState :=
  { s with buzzerOn := b }

/-- `AlarmManager::updateBuzzer` as compiled for native builds: the timed
on/off cadence is device-only code, the remaining behaviour switches the
buzzer off whenever the manager is not alarming. -/
def AlarmState.updateBuzzer (s : AlarmState) : AlarmState :=
  if s.isAlarming then s else s.setBuzzer false

/-- The pit-deviation block of `AlarmManager::update` (lines 41-57). -/
def AlarmState.pitPhase (s : AlarmState) (pitTemp setpoint : ℚ)
    (pitReached : Bool) : AlarmState :=
  if pitReached = true ∧ 0 < setpoint ∧ 0 < pitTemp then
    if (setpoint + s.pitBand < pitTemp ∨ pitTemp < setpoint - s.pitBand) ∧
        s.pitTriggered = false then
      if setpoint + s.pitBand < pitTemp then s.addAlarm .pitHigh
      else s.addAlarm .pitLow
    else if ¬(setpoint + s.pitBand < pitTemp ∨ pitTemp < setpoint - s.pitBand) then
      { (s.removeAlarm .pitHigh).removeAlarm .pitLow with pitTriggered := false }
    else s
  else s

/-- The meat-1 block of `AlarmManager::update` (lines 59-65). -/
def AlarmState.meat1Phase (s : AlarmState) (meat1Temp : ℚ) : AlarmState :=
  if 0 < s.meat1Target ∧ 0 < meat1Temp ∧ s.meat1Triggered = false then
    if s.meat1Target ≤ meat1Temp then
      { s.addAlarm .meat1Done with meat1Triggered := true }
    else s
  else s

/-- The meat-2 block of `AlarmManager::update` (lines 67-73). -/
def AlarmState.meat2Phase (s : AlarmState) (meat2Temp : ℚ) : AlarmState :=
  if 0 < s.meat2Target ∧ 0 < meat2Temp ∧ s.meat2Triggered = false then
    if s.meat2Target ≤ meat2Temp then
      { s.addAlarm .meat2Done with meat2Triggered := true }
    else s
  else s

/-- `AlarmManager::update`. -/
def AlarmState.update (s : AlarmState) (pitTemp meat1Temp meat2Temp setpoint : ℚ)
    (pitReached : Bool) : AlarmState :=
  if s.enabled = false then s.setBuzzer false
  else
    ((((s.pitPhase pitTemp setpoint pitReached).meat1Phase meat1Temp).meat2Phase
        meat2Temp).updateBuzzer)

/-- `AlarmManager::acknowledge`: silence, mark the active alarms' trigger
flags, clear the active list. -/
def AlarmState.acknowledge (s : AlarmState) : AlarmState :=
  { s with
    acknowledged := true
    buzzerOn := false
    pitTriggered :=
      s.pitTriggered || decide (AlarmType.pitHigh ∈ s.activeAlarms) ||
        decide (AlarmType.pitLow ∈ s.activeAlarms)
    meat1Triggered := s.meat1Triggered || decide (AlarmType.meat1Done ∈ s.activeAlarms)
    meat2Triggered := s.meat2Triggered || decide (AlarmType.meat2Done ∈ s.activeAlarms)
    activeAlarms := [] }

/-- `AlarmManager::setMeat1Target`. -/
def AlarmState.setMeat1Target (s : AlarmState) (t : ℚ) : AlarmState :=
  { s with meat1Target := t, meat1Triggered := false }

/-- `AlarmManager::setMeat2Target`. -/
def AlarmState.setMeat2Target (s : AlarmState) (t : ℚ) : AlarmState :=
  { s with meat2Target := t, meat2Triggered := false }

/-- `AlarmManager::setPitBand`. -/
def AlarmState.setPitBand (s : AlarmState) (band : ℚ) : AlarmState :=
  if 0 < band then { s with pitBand := band } else s

/-- `AlarmManager::setEnabled`. -/
def AlarmState.setEnabled (s : AlarmState) (e : Bool) : AlarmState :=
  if e = false then { s with enabled := e, buzzerOn := false }
  else { s with enabled := e }

/-- The alarm-manager operations named by the spec's interface. -/
inductive AlarmOp where
  | update (pitTemp meat1Temp meat2Temp setpoint : ℚ) (pitReached : Bool)
  | acknowledge
  | setMeat1Target (t : ℚ)
  | setMeat2Target (t : ℚ)
  | setPitBand (band : ℚ)

/-- Interpret one operation. -/
def AlarmState.applyOp (s : AlarmState) : AlarmOp → AlarmState
  | .update p m1 m2 sp r => s.update p m1 m2 sp r
  | .acknowledge => s.acknowledge
  | .setMeat1Target t => s.setMeat1Target t
  | .setMeat2Target t => s.setMeat2Target t
  | .setPitBand b => s.setPitBand b

/-- Interpret a sequence of operations from left to right. -/
def AlarmState.applyOps (s : AlarmState) (ops : List AlarmOp) : AlarmState :=
  ops.foldl AlarmState.applyOp s

/-- Claim C1 (counterexample).  Starting from a fresh manager with pit band
15, an update at pit 300 (setpoint 250, pit reached) adds PitHigh, and a
following update at pit 200 adds PitLow while PitHigh is still active: the
pit never passed through the band, so the in-band removal branch never ran
and both pit alarms are active simultaneously. -/
theorem alarm_pit_high_and_low_both_active_cex :
    AlarmType.pitHigh ∈ ((AlarmState.init 15).applyOps
      [.update 300 0 0 250 true, .update 200 0 0 250 true]).activeAlarms ∧
    AlarmType.pitLow ∈ ((AlarmState.init 15).applyOps
      [.update 300 0 0 250 true, .update 200 0 0 250 true]).activeAlarms := by
  norm_num [AlarmState.applyOps, AlarmState.applyOp, AlarmState.update,
    AlarmState.pitPhase, AlarmState.meat1Phase, AlarmState.meat2Phase,
    AlarmState.updateBuzzer, AlarmState.setBuzzer, AlarmState.addAlarm,
    AlarmState.removeAlarm, AlarmState.isAlarmActive, AlarmState.isAlarming,
    AlarmState.init, List.foldl]
  decide

/-! ### Structural lemmas about the alarm manager -/

@[simp]
theorem AlarmState.activeAlarms_setBuzzer (s : AlarmState) (b : Bool) :
    (s.setBuzzer b).activeAlarms = s.activeAlarms := rfl

@[simp]
theorem AlarmState.activeAlarms_updateBuzzer (s : AlarmState) :
    s.updateBuzzer.activeAlarms = s.activeAlarms := by
  unfold AlarmState.updateBuzzer
  split <;> rfl

@[simp]
theorem AlarmState.activeAlarms_removeAlarm (s : AlarmState) (t : AlarmType) :
    (s.removeAlarm t).activeAlarms = s.activeAlarms.erase t := rfl

@[simp]
theorem AlarmState.meat1Triggered_addAlarm (s : AlarmState) (t : AlarmType) :
    (s.addAlarm t).meat1Triggered = s.meat1Triggered := by
  unfold AlarmState.addAlarm; split_ifs <;> rfl

@[simp]
theorem AlarmState.meat2Triggered_addAlarm (s : AlarmState) (t : AlarmType) :
    (s.addAlarm t).meat2Triggered = s.meat2Triggered := by
  unfold AlarmState.addAlarm; split_ifs <;> rfl

@[simp]
theorem AlarmState.enabled_addAlarm (s : AlarmState) (t : AlarmType) :
    (s.addAlarm t).enabled = s.enabled := by
  unfold AlarmState.addAlarm; split_ifs <;> rfl

@[simp]
theorem AlarmState.meat1Target_addAlarm (s : AlarmState) (t : AlarmType) :
    (s.addAlarm t).meat1Target = s.meat1Target := by
  unfold AlarmState.addAlarm; split_ifs <;> rfl

@[simp]
theorem AlarmState.meat2Target_addAlarm (s : AlarmState) (t : AlarmType) :
    (s.addAlarm t).meat2Target = s.meat2Target := by
  unfold AlarmState.addAlarm; split_ifs <;> rfl

theorem AlarmState.mem_addAlarm_iff (s : AlarmState) {t' t : AlarmType} (hne : t' ≠ t) :
    t' ∈ (s.addAlarm t).activeAlarms ↔ t' ∈ s.activeAlarms := by
  unfold AlarmState.addAlarm
  split_ifs <;> simp [hne]

theorem AlarmState.mem_addAlarm_of_mem (s : AlarmState) {t' : AlarmType} (t : AlarmType)
    (h : t' ∈ s.activeAlarms) : t' ∈ (s.addAlarm t).activeAlarms := by
  unfold AlarmState.addAlarm
  split_ifs <;> simp [h]

theorem AlarmState.mem_addAlarm_self (s : AlarmState) (t : AlarmType)
    (h : s.activeAlarms.length < 4) : t ∈ (s.addAlarm t).activeAlarms := by
  unfold AlarmState.addAlarm
  split_ifs with h1 h2
  · exact h1
  · exact absurd h2 (by omega)
  · simp

theorem AlarmState.mem_removeAlarm_iff (s : AlarmState) {t' t : AlarmType} (hne : t' ≠ t) :
    t' ∈ (s.removeAlarm t).activeAlarms ↔ t' ∈ s.activeAlarms := by
  simpa using List.mem_erase_of_ne hne

theorem AlarmState.not_mem_removeAlarm (s : AlarmState) {t' : AlarmType} (t : AlarmType)
    (h : t' ∉ s.activeAlarms) : t' ∉ (s.removeAlarm t).activeAlarms :=
  fun hm => h (List.mem_of_mem_erase hm)

theorem AlarmState.mem_pitPhase_iff (s : AlarmState) (p sp : ℚ) (r : Bool)
    {t' : AlarmType} (h1 : t' ≠ .pitHigh) (h2 : t' ≠ .pitLow) :
    t' ∈ (s.pitPhase p sp r).activeAlarms ↔ t' ∈ s.activeAlarms := by
  unfold AlarmState.pitPhase
  split_ifs <;>
    simp [AlarmState.mem_addAlarm_iff, List.mem_erase_of_ne, h1, h2]

theorem AlarmState.mem_meat1Phase_iff (s : AlarmState) (m : ℚ)
    {t' : AlarmType} (h : t' ≠ .meat1Done) :
    t' ∈ (s.meat1Phase m).activeAlarms ↔ t' ∈ s.activeAlarms := by
  unfold AlarmState.meat1Phase
  split_ifs <;> simp [AlarmState.mem_addAlarm_iff, h]

theorem AlarmState.mem_meat2Phase_iff (s : AlarmState) (m : ℚ)
    {t' : AlarmType} (h : t' ≠ .meat2Done) :
    t' ∈ (s.meat2Phase m).activeAlarms ↔ t' ∈ s.activeAlarms := by
  unfold AlarmState.meat2Phase
  split_ifs <;> simp [AlarmState.mem_addAlarm_iff, h]

theorem AlarmState.mem_meat1Phase_of_mem (s : AlarmState) (m : ℚ)
    {t' : AlarmType} (h : t' ∈ s.activeAlarms) :
    t' ∈ (s.meat1Phase m).activeAlarms := by
  unfold AlarmState.meat1Phase
  split_ifs <;> simp [AlarmState.mem_addAlarm_of_mem, h]

theorem AlarmState.mem_meat2Phase_of_mem (s : AlarmState) (m : ℚ)
    {t' : AlarmType} (h : t' ∈ s.activeAlarms) :
    t' ∈ (s.meat2Phase m).activeAlarms := by
  unfold AlarmState.meat2Phase
  split_ifs <;> simp [AlarmState.mem_addAlarm_of_mem, h]

/-- Well-formedness of the active-alarm list: no duplicates (`addAlarm`
refuses a kind that is already active) and no `NONE` sentinel. -/
def AlarmState.WF (s : AlarmState) : Prop :=
  s.activeAlarms.Nodup ∧ AlarmType.none ∉ s.activeAlarms

instance (s : AlarmState) : Decidable s.WF :=
  inferInstanceAs (Decidable (_ ∧ _))

theorem AlarmState.WF_addAlarm {s : AlarmState} {t : AlarmType}
    (ht : t ≠ .none) (hwf : s.WF) : (s.addAlarm t).WF := by
  unfold AlarmState.addAlarm
  split_ifs with h1 h2
  · exact hwf
  · exact hwf
  · refine ⟨?_, ?_⟩
    · simp [List.nodup_append, hwf.1]
      exact h1
    · simp [hwf.2]
      exact fun hh => ht hh.symm

theorem AlarmState.WF_removeAlarm {s : AlarmState} (t : AlarmType)
    (hwf : s.WF) : (s.removeAlarm t).WF :=
  ⟨hwf.1.erase t, AlarmState.not_mem_removeAlarm s t hwf.2⟩

theorem AlarmState.WF_pitPhase {s : AlarmState} (p sp : ℚ) (r : Bool)
    (hwf : s.WF) : (s.pitPhase p sp r).WF := by
  unfold AlarmState.pitPhase
  split_ifs <;>
    first
      | exact AlarmState.WF_addAlarm (by decide) hwf
      | exact AlarmState.WF_removeAlarm _ (AlarmState.WF_removeAlarm _ hwf)
      | exact hwf

theorem AlarmState.WF_meat1Phase {s : AlarmState} (m : ℚ)
    (hwf : s.WF) : (s.meat1Phase m).WF := by
  unfold AlarmState.meat1Phase
  split_ifs
  · exact AlarmState.WF_addAlarm (by decide) hwf
  · exact hwf
  · exact hwf

theorem AlarmState.WF_meat2Phase {s : AlarmState} (m : ℚ)
    (hwf : s.WF) : (s.meat2Phase m).WF := by
  unfold AlarmState.meat2Phase
  split_ifs
  · exact AlarmState.WF_addAlarm (by decide) hwf
  · exact hwf
  · exact hwf

theorem AlarmState.WF_update {s : AlarmState} (p m1 m2 sp : ℚ) (r : Bool)
    (hwf : s.WF) : (s.update p m1 m2 sp r).WF := by
  unfold AlarmState.update
  split_ifs with h
  · exact hwf
  · constructor
    · simpa using (AlarmState.WF_meat2Phase m2
        (AlarmState.WF_meat1Phase m1 (AlarmState.WF_pitPhase p sp r hwf))).1
    · simpa using (AlarmState.WF_meat2Phase m2
        (AlarmState.WF_meat1Phase m1 (AlarmState.WF_pitPhase p sp r hwf))).2

/-- In a well-formed state where kind `t` (a real kind) is absent, at most
the other three kinds can be active, so the list has room for `t`. -/
theorem AlarmState.length_lt_four {s : AlarmState} {t : AlarmType}
    (hwf : s.WF) (ht : t ≠ .none) (habs : t ∉ s.activeAlarms) :
    s.activeAlarms.length < 4 := by
  have hsub : s.activeAlarms.toFinset ⊆ (Finset.univ.erase .none).erase t := by
    intro x hx
    rw [List.mem_toFinset] at hx
    refine Finset.mem_erase.2 ⟨fun hh => habs (hh ▸ hx), ?_⟩
    exact Finset.mem_erase.2 ⟨fun hh => hwf.2 (hh ▸ hx), Finset.mem_univ x⟩
  have hcard := Finset.card_le_card hsub
  rw [List.toFinset_card_of_nodup hwf.1] at hcard
  have hcard5 : Fintype.card AlarmType = 5 := rfl
  have hle : ((Finset.univ.erase AlarmType.none).erase t).card = 3 := by
    rw [Finset.card_erase_of_mem (Finset.mem_erase.2 ⟨ht, Finset.mem_univ t⟩),
      Finset.card_erase_of_mem (Finset.mem_univ _), Finset.card_univ, hcard5]
  omega

theorem AlarmState.pitPhase_not_both (s : AlarmState) (p sp : ℚ) (r : Bool)
    (hh : AlarmType.pitHigh ∉ s.activeAlarms)
    (hl : AlarmType.pitLow ∉ s.activeAlarms) :
    ¬(AlarmType.pitHigh ∈ (s.pitPhase p sp r).activeAlarms ∧
      AlarmType.pitLow ∈ (s.pitPhase p sp r).activeAlarms) := by
  unfold AlarmState.pitPhase
  split_ifs <;> rintro ⟨hH, hL⟩ <;>
    first
      | exact hl ((s.mem_addAlarm_iff (by decide)).1 hL)
      | exact hh ((s.mem_addAlarm_iff (by decide)).1 hH)
      | exact hh (List.mem_of_mem_erase (List.mem_of_mem_erase hH))
      | exact hh hH

/-- Claim C1 (amended): a single `update()` call never adds both pit
alarms — from a state in which neither PitHigh nor PitLow is active, at
most one of them is active afterwards.  (The unamended claim fails
because an active pit alarm is only removed once the pit re-enters the
band, so an out-of-band swing straight across the band leaves the old
pit alarm active while the opposite one is added; see the
counterexample.) -/
theorem alarm_update_never_adds_both_pit_alarms
    (s : AlarmState) (p m1 m2 sp : ℚ) (r : Bool)
    (hh : AlarmType.pitHigh ∉ s.activeAlarms)
    (hl : AlarmType.pitLow ∉ s.activeAlarms) :
    ¬(AlarmType.pitHigh ∈ (s.update p m1 m2 sp r).activeAlarms ∧
      AlarmType.pitLow ∈ (s.update p m1 m2 sp r).activeAlarms) := by
  unfold AlarmState.update
  split_ifs with he
  · exact fun hcon => hh hcon.1
  · rintro ⟨hH, hL⟩
    rw [AlarmState.activeAlarms_updateBuzzer,
      AlarmState.mem_meat2Phase_iff _ _ (by decide),
      AlarmState.mem_meat1Phase_iff _ _ (by decide)] at hH hL
    exact AlarmState.pitPhase_not_both s p sp r hh hl ⟨hH, hL⟩

/-- Witness for the amended claim C1 at a concrete state and input. -/
theorem alarm_update_never_adds_both_pit_alarms_witness :
    ¬(AlarmType.pitHigh ∈
        ((AlarmState.init 15).update 300 0 0 250 true).activeAlarms ∧
      AlarmType.pitLow ∈
        ((AlarmState.init 15).update 300 0 0 250 true).activeAlarms) :=
  alarm_update_never_adds_both_pit_alarms (AlarmState.init 15) 300 0 0 250 true
    (by decide) (by decide)

/-- Claim C10: inserting a kind that is not already active (with room in
the list) clears a prior acknowledgment, and `isAlarming()` then holds,
restarting the buzzer cadence. -/
theorem alarm_addAlarm_new_kind_clears_acknowledgment
    (s : AlarmState) (t : AlarmType)
    (hnew : t ∉ s.activeAlarms) (hroom : s.activeAlarms.length < 4) :
    (s.addAlarm t).acknowledged = false ∧ (s.addAlarm t).isAlarming := by
  unfold AlarmState.addAlarm
  split_ifs with h1 h2
  · exact absurd h1 hnew
  · omega
  · exact ⟨rfl, by simp, rfl⟩

/-- Witness for claim C10: a fresh manager with an acknowledged history
accepts Meat1Done and is alarming again. -/
theorem alarm_addAlarm_new_kind_clears_acknowledgment_witness :
    ((AlarmState.init 15).addAlarm .meat1Done).acknowledged = false ∧
      ((AlarmState.init 15).addAlarm .meat1Done).isAlarming :=
  alarm_addAlarm_new_kind_clears_acknowledgment (AlarmState.init 15) .meat1Done
    (by decide) (by decide)

/-! ### Meat-done hysteresis (claim C2) -/

/-- One tick's worth of `AlarmManager::update` arguments. -/
structure AlarmInput where
  pit : ℚ
  meat1 : ℚ
  meat2 : ℚ
  setpoint : ℚ
  reached : Bool

/-- `update` applied to a bundled input. -/
def AlarmState.updateIn (s : AlarmState) (a : AlarmInput) : AlarmState :=
  s.update a.pit a.meat1 a.meat2 a.setpoint a.reached

/-- A sequence of `update` calls. -/
def AlarmState.applyUpdates (s : AlarmState) (l : List AlarmInput) : AlarmState :=
  l.foldl AlarmState.updateIn s

@[simp]
theorem AlarmState.meat1Triggered_removeAlarm (s : AlarmState) (t : AlarmType) :
    (s.removeAlarm t).meat1Triggered = s.meat1Triggered := rfl

@[simp]
theorem AlarmState.meat2Triggered_removeAlarm (s : AlarmState) (t : AlarmType) :
    (s.removeAlarm t).meat2Triggered = s.meat2Triggered := rfl

@[simp]
theorem AlarmState.enabled_removeAlarm (s : AlarmState) (t : AlarmType) :
    (s.removeAlarm t).enabled = s.enabled := rfl

@[simp]
theorem AlarmState.meat1Target_removeAlarm (s : AlarmState) (t : AlarmType) :
    (s.removeAlarm t).meat1Target = s.meat1Target := rfl

@[simp]
theorem AlarmState.meat2Target_removeAlarm (s : AlarmState) (t : AlarmType) :
    (s.removeAlarm t).meat2Target = s.meat2Target := rfl

@[simp]
theorem AlarmState.enabled_setBuzzer (s : AlarmState) (b : Bool) :
    (s.setBuzzer b).enabled = s.enabled := rfl

@[simp]
theorem AlarmState.meat1Triggered_setBuzzer (s : AlarmState) (b : Bool) :
    (s.setBuzzer b).meat1Triggered = s.meat1Triggered := rfl

@[simp]
theorem AlarmState.meat2Triggered_setBuzzer (s : AlarmState) (b : Bool) :
    (s.setBuzzer b).meat2Triggered = s.meat2Triggered := rfl

@[simp]
theorem AlarmState.meat1Triggered_pitPhase (s : AlarmState) (p sp : ℚ) (r : Bool) :
    (s.pitPhase p sp r).meat1Triggered = s.meat1Triggered := by
  unfold AlarmState.pitPhase; split_ifs <;> simp

@[simp]
theorem AlarmState.meat2Triggered_pitPhase (s : AlarmState) (p sp : ℚ) (r : Bool) :
    (s.pitPhase p sp r).meat2Triggered = s.meat2Triggered := by
  unfold AlarmState.pitPhase; split_ifs <;> simp

@[simp]
theorem AlarmState.enabled_pitPhase (s : AlarmState) (p sp : ℚ) (r : Bool) :
    (s.pitPhase p sp r).enabled = s.enabled := by
  unfold AlarmState.pitPhase; split_ifs <;> simp

@[simp]
theorem AlarmState.meat1Target_pitPhase (s : AlarmState) (p sp : ℚ) (r : Bool) :
    (s.pitPhase p sp r).meat1Target = s.meat1Target := by
  unfold AlarmState.pitPhase; split_ifs <;> simp

@[simp]
theorem AlarmState.meat2Target_pitPhase (s : AlarmState) (p sp : ℚ) (r : Bool) :
    (s.pitPhase p sp r).meat2Target = s.meat2Target := by
  unfold AlarmState.pitPhase; split_ifs <;> simp

@[simp]
theorem AlarmState.enabled_meat1Phase (s : AlarmState) (m : ℚ) :
    (s.meat1Phase m).enabled = s.enabled := by
  unfold AlarmState.meat1Phase; split_ifs <;> simp

@[simp]
theorem AlarmState.enabled_meat2Phase (s : AlarmState) (m : ℚ) :
    (s.meat2Phase m).enabled = s.enabled := by
  unfold AlarmState.meat2Phase; split_ifs <;> simp

@[simp]
theorem AlarmState.meat1Triggered_meat2Phase (s : AlarmState) (m : ℚ) :
    (s.meat2Phase m).meat1Triggered = s.meat1Triggered := by
  unfold AlarmState.meat2Phase; split_ifs <;> simp

@[simp]
theorem AlarmState.meat2Triggered_meat1Phase (s : AlarmState) (m : ℚ) :
    (s.meat1Phase m).meat2Triggered = s.meat2Triggered := by
  unfold AlarmState.meat1Phase; split_ifs <;> simp

@[simp]
theorem AlarmState.meat2Target_meat1Phase (s : AlarmState) (m : ℚ) :
    (s.meat1Phase m).meat2Target = s.meat2Target := by
  unfold AlarmState.meat1Phase; split_ifs <;> simp

@[simp]
theorem AlarmState.meat1Triggered_updateBuzzer (s : AlarmState) :
    s.updateBuzzer.meat1Triggered = s.meat1Triggered := by
  unfold AlarmState.updateBuzzer; split <;> rfl

@[simp]
theorem AlarmState.meat2Triggered_updateBuzzer (s : AlarmState) :
    s.updateBuzzer.meat2Triggered = s.meat2Triggered := by
  unfold AlarmState.updateBuzzer; split <;> rfl

@[simp]
theorem AlarmState.enabled_updateBuzzer (s : AlarmState) :
    s.updateBuzzer.enabled = s.enabled := by
  unfold AlarmState.updateBuzzer; split <;> rfl

theorem AlarmState.WF_updateBuzzer {s : AlarmState} (hwf : s.WF) :
    s.updateBuzzer.WF := by
  unfold AlarmState.updateBuzzer; split <;> exact hwf

/-- When the probe's trigger flag is latched, the meat-1 block is a no-op. -/
theorem AlarmState.meat1Phase_of_triggered {s : AlarmState} (m : ℚ)
    (h : s.meat1Triggered = true) : s.meat1Phase m = s := by
  unfold AlarmState.meat1Phase
  rw [if_neg (by simp [h])]

theorem AlarmState.meat2Phase_of_triggered {s : AlarmState} (m : ℚ)
    (h : s.meat2Triggered = true) : s.meat2Phase m = s := by
  unfold AlarmState.meat2Phase
  rw [if_neg (by simp [h])]

/-- A latched meat-1 trigger survives one `update` and keeps Meat1Done
out of the active list. -/
theorem AlarmState.step_meat1 (s : AlarmState) (a : AlarmInput)
    (h1 : s.meat1Triggered = true)
    (h2 : AlarmType.meat1Done ∉ s.activeAlarms) (hwf : s.WF) :
    (s.updateIn a).meat1Triggered = true ∧
      AlarmType.meat1Done ∉ (s.updateIn a).activeAlarms ∧ (s.updateIn a).WF := by
  unfold AlarmState.updateIn AlarmState.update
  split_ifs with he
  · exact ⟨h1, h2, hwf⟩
  · have hP1 : (s.pitPhase a.pit a.setpoint a.reached).meat1Triggered = true := by
      simp [h1]
    have hP2 : AlarmType.meat1Done ∉
        (s.pitPhase a.pit a.setpoint a.reached).activeAlarms := fun hm =>
      h2 ((AlarmState.mem_pitPhase_iff _ _ _ _ (by decide) (by decide)).1 hm)
    have hPwf := AlarmState.WF_pitPhase a.pit a.setpoint a.reached hwf
    rw [AlarmState.meat1Phase_of_triggered a.meat1 hP1]
    refine ⟨by simp [h1], ?_, ?_⟩
    · rw [AlarmState.activeAlarms_updateBuzzer]
      exact fun hm =>
        hP2 ((AlarmState.mem_meat2Phase_iff _ _ (by decide)).1 hm)
    · exact AlarmState.WF_updateBuzzer (AlarmState.WF_meat2Phase a.meat2 hPwf)

theorem AlarmState.step_meat2 (s : AlarmState) (a : AlarmInput)
    (h1 : s.meat2Triggered = true)
    (h2 : AlarmType.meat2Done ∉ s.activeAlarms) (hwf : s.WF) :
    (s.updateIn a).meat2Triggered = true ∧
      AlarmType.meat2Done ∉ (s.updateIn a).activeAlarms ∧ (s.updateIn a).WF := by
  unfold AlarmState.updateIn AlarmState.update
  split_ifs with he
  · exact ⟨h1, h2, hwf⟩
  · have hP1 : ((s.pitPhase a.pit a.setpoint a.reached).meat1Phase
        a.meat1).meat2Triggered = true := by simp [h1]
    have hP2 : AlarmType.meat2Done ∉
        ((s.pitPhase a.pit a.setpoint a.reached).meat1Phase a.meat1).activeAlarms :=
      fun hm => h2 ((AlarmState.mem_pitPhase_iff _ _ _ _ (by decide) (by decide)).1
        ((AlarmState.mem_meat1Phase_iff _ _ (by decide)).1 hm))
    have hPwf := AlarmState.WF_meat1Phase a.meat1
      (AlarmState.WF_pitPhase a.pit a.setpoint a.reached hwf)
    rw [AlarmState.meat2Phase_of_triggered a.meat2 hP1]
    refine ⟨by simp [h1], ?_, ?_⟩
    · rw [AlarmState.activeAlarms_updateBuzzer]
      exact hP2
    · exact AlarmState.WF_updateBuzzer hPwf

theorem AlarmState.applyUpdates_meat1 (l : List AlarmInput) :
    ∀ s : AlarmState, s.meat1Triggered = true →
      AlarmType.meat1Done ∉ s.activeAlarms → s.WF →
      (s.applyUpdates l).meat1Triggered = true ∧
        AlarmType.meat1Done ∉ (s.applyUpdates l).activeAlarms ∧
        (s.applyUpdates l).WF := by
  induction l with
  | nil => exact fun s h1 h2 hwf => ⟨h1, h2, hwf⟩
  | cons a l ih =>
    intro s h1 h2 hwf
    have hs := AlarmState.step_meat1 s a h1 h2 hwf
    exact ih (s.updateIn a) hs.1 hs.2.1 hs.2.2

theorem AlarmState.applyUpdates_meat2 (l : List AlarmInput) :
    ∀ s : AlarmState, s.meat2Triggered = true →
      AlarmType.meat2Done ∉ s.activeAlarms → s.WF →
      (s.applyUpdates l).meat2Triggered = true ∧
        AlarmType.meat2Done ∉ (s.applyUpdates l).activeAlarms ∧
        (s.applyUpdates l).WF := by
  induction l with
  | nil => exact fun s h1 h2 hwf => ⟨h1, h2, hwf⟩
  | cons a l ih =>
    intro s h1 h2 hwf
    have hs := AlarmState.step_meat2 s a h1 h2 hwf
    exact ih (s.updateIn a) hs.1 hs.2.1 hs.2.2

theorem AlarmState.enabled_updateIn (s : AlarmState) (a : AlarmInput) :
    (s.updateIn a).enabled = s.enabled := by
  unfold AlarmState.updateIn AlarmState.update
  split_ifs <;> simp

theorem AlarmState.enabled_applyUpdates (l : List AlarmInput) :
    ∀ s : AlarmState, (s.applyUpdates l).enabled = s.enabled := by
  induction l with
  | nil => exact fun s => rfl
  | cons a l ih =>
    intro s
    calc (s.applyUpdates (a :: l)).enabled
        = ((s.updateIn a).applyUpdates l).enabled := rfl
      _ = (s.updateIn a).enabled := ih _
      _ = s.enabled := AlarmState.enabled_updateIn s a

@[simp]
theorem AlarmState.activeAlarms_acknowledge (s : AlarmState) :
    s.acknowledge.activeAlarms = [] := rfl

@[simp]
theorem AlarmState.enabled_acknowledge (s : AlarmState) :
    s.acknowledge.enabled = s.enabled := rfl

@[simp]
theorem AlarmState.enabled_setMeat1Target (s : AlarmState) (t : ℚ) :
    (s.setMeat1Target t).enabled = s.enabled := rfl

@[simp]
theorem AlarmState.enabled_setMeat2Target (s : AlarmState) (t : ℚ) :
    (s.setMeat2Target t).enabled = s.enabled := rfl

@[simp]
theorem AlarmState.activeAlarms_setMeat1Target (s : AlarmState) (t : ℚ) :
    (s.setMeat1Target t).activeAlarms = s.activeAlarms := rfl

@[simp]
theorem AlarmState.activeAlarms_setMeat2Target (s : AlarmState) (t : ℚ) :
    (s.setMeat2Target t).activeAlarms = s.activeAlarms := rfl

@[simp]
theorem AlarmState.meat1Triggered_setMeat1Target (s : AlarmState) (t : ℚ) :
    (s.setMeat1Target t).meat1Triggered = false := rfl

@[simp]
theorem AlarmState.meat2Triggered_setMeat2Target (s : AlarmState) (t : ℚ) :
    (s.setMeat2Target t).meat2Triggered = false := rfl

@[simp]
theorem AlarmState.meat1Target_setMeat1Target (s : AlarmState) (t : ℚ) :
    (s.setMeat1Target t).meat1Target = t := rfl

@[simp]
theorem AlarmState.meat2Target_setMeat2Target (s : AlarmState) (t : ℚ) :
    (s.setMeat2Target t).meat2Target = t := rfl

/-- After a fresh target assignment, the first qualifying update re-adds
Meat1Done. -/
theorem AlarmState.refire_meat1 (s : AlarmState) (hwf : s.WF)
    (hen : s.enabled = true) (hnm : AlarmType.meat1Done ∉ s.activeAlarms)
    (T : ℚ) (hT : 0 < T) (a : AlarmInput) (hge : T ≤ a.meat1)
    (hpos : 0 < a.meat1) :
    AlarmType.meat1Done ∈ ((s.setMeat1Target T).updateIn a).activeAlarms := by
  unfold AlarmState.updateIn AlarmState.update
  split_ifs with he
  · rw [AlarmState.enabled_setMeat1Target, hen] at he
    exact absurd he (by decide)
  · have hPn : AlarmType.meat1Done ∉
        ((s.setMeat1Target T).pitPhase a.pit a.setpoint a.reached).activeAlarms :=
      fun hm => hnm ((AlarmState.mem_pitPhase_iff (s.setMeat1Target T) _ _ _
        (by decide) (by decide)).1 hm)
    have hPt : ((s.setMeat1Target T).pitPhase a.pit a.setpoint
        a.reached).meat1Triggered = false := by simp
    have hPT : ((s.setMeat1Target T).pitPhase a.pit a.setpoint
        a.reached).meat1Target = T := by simp
    have hPwf : ((s.setMeat1Target T).pitPhase a.pit a.setpoint a.reached).WF :=
      AlarmState.WF_pitPhase a.pit a.setpoint a.reached ⟨hwf.1, hwf.2⟩
    have hlen := AlarmState.length_lt_four hPwf (t := .meat1Done) (by decide) hPn
    have hM : ((s.setMeat1Target T).pitPhase a.pit a.setpoint a.reached).meat1Phase
        a.meat1 =
        { ((s.setMeat1Target T).pitPhase a.pit a.setpoint a.reached).addAlarm
            .meat1Done with meat1Triggered := true } := by
      unfold AlarmState.meat1Phase
      rw [if_pos ⟨by rw [hPT]; exact hT, hpos, hPt⟩, if_pos (by rw [hPT]; exact hge)]
    rw [AlarmState.activeAlarms_updateBuzzer, hM]
    exact AlarmState.mem_meat2Phase_of_mem _ _
      (AlarmState.mem_addAlarm_self _ .meat1Done hlen)

/-- After a fresh target assignment, the first qualifying update re-adds
Meat2Done. -/
theorem AlarmState.refire_meat2 (s : AlarmState) (hwf : s.WF)
    (hen : s.enabled = true) (hnm : AlarmType.meat2Done ∉ s.activeAlarms)
    (T : ℚ) (hT : 0 < T) (a : AlarmInput) (hge : T ≤ a.meat2)
    (hpos : 0 < a.meat2) :
    AlarmType.meat2Done ∈ ((s.setMeat2Target T).updateIn a).activeAlarms := by
  unfold AlarmState.updateIn AlarmState.update
  split_ifs with he
  · rw [AlarmState.enabled_setMeat2Target, hen] at he
    exact absurd he (by decide)
  · have hQn : AlarmType.meat2Done ∉
        (((s.setMeat2Target T).pitPhase a.pit a.setpoint a.reached).meat1Phase
          a.meat1).activeAlarms :=
      fun hm => hnm ((AlarmState.mem_pitPhase_iff (s.setMeat2Target T) _ _ _
        (by decide) (by decide)).1
        ((AlarmState.mem_meat1Phase_iff
          ((s.setMeat2Target T).pitPhase a.pit a.setpoint a.reached) _
          (by decide)).1 hm))
    have hQt : (((s.setMeat2Target T).pitPhase a.pit a.setpoint a.reached).meat1Phase
        a.meat1).meat2Triggered = false := by simp
    have hQT : (((s.setMeat2Target T).pitPhase a.pit a.setpoint a.reached).meat1Phase
        a.meat1).meat2Target = T := by simp [AlarmState.setMeat2Target]
    have hQwf : (((s.setMeat2Target T).pitPhase a.pit a.setpoint
        a.reached).meat1Phase a.meat1).WF :=
      AlarmState.WF_meat1Phase a.meat1
        (AlarmState.WF_pitPhase a.pit a.setpoint a.reached ⟨hwf.1, hwf.2⟩)
    have hlen := AlarmState.length_lt_four hQwf (t := .meat2Done) (by decide) hQn
    have hM : (((s.setMeat2Target T).pitPhase a.pit a.setpoint a.reached).meat1Phase
        a.meat1).meat2Phase a.meat2 =
        { (((s.setMeat2Target T).pitPhase a.pit a.setpoint a.reached).meat1Phase
            a.meat1).addAlarm .meat2Done with meat2Triggered := true } := by
      unfold AlarmState.meat2Phase
      rw [if_pos ⟨by rw [hQT]; exact hT, hpos, hQt⟩, if_pos (by rw [hQT]; exact hge)]
    rw [AlarmState.activeAlarms_updateBuzzer, hM]
    exact AlarmState.mem_addAlarm_self _ .meat2Done hlen

/-- Claim C2: for each meat probe, once its done-alarm has fired and
`acknowledge()` has been called, no sequence of subsequent `update()`
calls puts the done-alarm back into the active list — whatever
temperatures are observed — until the probe's target is re-assigned; and
after `setMeatNTarget(T)` with `T > 0`, an update with that probe's
temperature `≥ T` and `> 0` adds the done-alarm again (in an enabled,
well-formed manager). -/
theorem alarm_meat_done_no_refire_until_new_target
    (s : AlarmState) (hen : s.enabled = true)
    (l : List AlarmInput) (T : ℚ) (hT : 0 < T) (a : AlarmInput) :
    (AlarmType.meat1Done ∈ s.activeAlarms →
      (∀ l1 l2 : List AlarmInput, l = l1 ++ l2 →
        AlarmType.meat1Done ∉ (s.acknowledge.applyUpdates l1).activeAlarms) ∧
      (T ≤ a.meat1 → 0 < a.meat1 →
        AlarmType.meat1Done ∈
          (((s.acknowledge.applyUpdates l).setMeat1Target T).updateIn
            a).activeAlarms)) ∧
    (AlarmType.meat2Done ∈ s.activeAlarms →
      (∀ l1 l2 : List AlarmInput, l = l1 ++ l2 →
        AlarmType.meat2Done ∉ (s.acknowledge.applyUpdates l1).activeAlarms) ∧
      (T ≤ a.meat2 → 0 < a.meat2 →
        AlarmType.meat2Done ∈
          (((s.acknowledge.applyUpdates l).setMeat2Target T).updateIn
            a).activeAlarms)) := by
  have hackWF : s.acknowledge.WF := ⟨List.nodup_nil, by simp⟩
  constructor
  · intro hin
    have htrig : s.acknowledge.meat1Triggered = true := by
      simp [AlarmState.acknowledge, hin]
    have hnm : AlarmType.meat1Done ∉ s.acknowledge.activeAlarms := by simp
    constructor
    · intro l1 l2 _
      exact (AlarmState.applyUpdates_meat1 l1 s.acknowledge htrig hnm hackWF).2.1
    · intro hge hpos
      have hu := AlarmState.applyUpdates_meat1 l s.acknowledge htrig hnm hackWF
      have hen2 : (s.acknowledge.applyUpdates l).enabled = true := by
        rw [AlarmState.enabled_applyUpdates, AlarmState.enabled_acknowledge, hen]
      exact AlarmState.refire_meat1 _ hu.2.2 hen2 hu.2.1 T hT a hge hpos
  · intro hin
    have htrig : s.acknowledge.meat2Triggered = true := by
      simp [AlarmState.acknowledge, hin]
    have hnm : AlarmType.meat2Done ∉ s.acknowledge.activeAlarms := by simp
    constructor
    · intro l1 l2 _
      exact (AlarmState.applyUpdates_meat2 l1 s.acknowledge htrig hnm hackWF).2.1
    · intro hge hpos
      have hu := AlarmState.applyUpdates_meat2 l s.acknowledge htrig hnm hackWF
      have hen2 : (s.acknowledge.applyUpdates l).enabled = true := by
        rw [AlarmState.enabled_applyUpdates, AlarmState.enabled_acknowledge, hen]
      exact AlarmState.refire_meat2 _ hu.2.2 hen2 hu.2.1 T hT a hge hpos

/-- A state in which both meat alarms have just fired. -/
def alarmStateC2 : AlarmState :=
  { meat1Target := 200
    meat2Target := 165
    pitBand := 15
    activeAlarms := [.meat1Done, .meat2Done]
    acknowledged := false
    enabled := true
    buzzerOn := true
    meat1Triggered := true
    meat2Triggered := true
    pitTriggered := false }

/-- Witness for claim C2: the scenario of spec test S3 — fire, acknowledge,
one more hot update, re-assign target 210, and an update at 210 re-adds
Meat1Done. -/
theorem alarm_meat_done_no_refire_until_new_target_witness :
    AlarmType.meat1Done ∈
      (((alarmStateC2.acknowledge.applyUpdates
          [⟨250, 205, 170, 250, true⟩]).setMeat1Target 210).updateIn
        ⟨250, 210, 170, 250, true⟩).activeAlarms :=
  ((alarm_meat_done_no_refire_until_new_target alarmStateC2 rfl
      [⟨250, 205, 170, 250, true⟩] 210 (by norm_num)
      ⟨250, 210, 170, 250, true⟩).1 (by decide)).2 (by norm_num) (by norm_num)

/-! ## Fan actuator (`fan_controller.cpp`) -/

/-- The fan configuration constants from `config.h` (not among the
sources examined), kept as parameters: `FAN_KICKSTART_PCT`,
`FAN_KICKSTART_MS`, `FAN_MIN_SPEED`, `FAN_LONGPULSE_THRESHOLD`,
`FAN_LONGPULSE_CYCLE_MS`. -/
structure FanCfg where
  kickstartPct : ℚ
  kickstartMs : ℕ
  minSpeed : ℚ
  longPulseThreshold : ℚ
  longPulseCycleMs : ℕ

/-- The `FanController` state.  Monotonic milliseconds are naturals (the
source's `unsigned long` arithmetic never wraps under a monotonic
clock). -/
structure FanState where
  targetPct : ℚ
  currentPct : ℚ
  currentDuty : ℕ
  kickStartActive : Bool
  kickStartEndMs : ℕ
  kickStartTargetPct : ℚ
  longPulseActive : Bool
  longPulseCycleStartMs : ℕ
  wasOff : Bool
  manualMode : Bool

/-- `FanController::FanController()`. -/
def FanState.init : FanState :=
  { targetPct := 0
    currentPct := 0
    currentDuty := 0
    kickStartActive := false
    kickStartEndMs := 0
    kickStartTargetPct := 0
    longPulseActive := false
    longPulseCycleStartMs := 0
    wasOff := true
    manualMode := false }

/-- `FanController::percentToDuty`: the `(uint8_t)` cast truncates the
rounded product toward zero. -/
def percentToDuty (pct : ℚ) : ℕ :=
  if pct ≤ 0 then 0
  else if 100 ≤ pct then 255
  else (⌊pct * 255 / 100 + 1 / 2⌋).toNat

/-- `FanController::setSpeed`: clamp into [0, 100] unless in manual
mode. -/
def FanState.setSpeed (s : FanState) (percent : ℚ) : FanState :=
  if s.manualMode then s
  else
    { s with targetPct :=
        if percent < 0 then 0 else if 100 < percent then 100 else percent }

/-- The long-pulse on-slice duration `(unsigned long)(onFraction * cycleMs)`
with `onFraction = effectivePct / FAN_LONGPULSE_THRESHOLD`; the C cast
truncates toward zero. -/
def fanOnTimeMs (cfg : FanCfg) (target : ℚ) : ℕ :=
  (⌊target / cfg.longPulseThreshold * (cfg.longPulseCycleMs : ℚ)⌋).toNat

/-- `FanController::update`. -/
def FanState.update (cfg : FanCfg) (s : FanState) (now : ℕ) : FanState :=
  if s.manualMode then s
  else if s.kickStartActive = true ∧ now < s.kickStartEndMs then
    { s with currentPct := cfg.kickstartPct
             currentDuty := percentToDuty cfg.kickstartPct }
  else
    let s1 := if s.kickStartActive then { s with kickStartActive := false } else s
    if s1.targetPct ≤ 0 then
      { s1 with wasOff := true, longPulseActive := false, currentPct := 0
                currentDuty := 0 }
    else if s1.wasOff then
      { s1 with wasOff := false, kickStartActive := true
                kickStartEndMs := now + cfg.kickstartMs
                kickStartTargetPct := s1.targetPct
                currentPct := cfg.kickstartPct
                currentDuty := percentToDuty cfg.kickstartPct }
    else
      let s2 := { s1 with wasOff := false }
      if s2.targetPct < cfg.longPulseThreshold then
        let s3 :=
          if s2.longPulseActive then s2
          else { s2 with longPulseActive := true, longPulseCycleStartMs := now }
        let posInCycle := (now - s3.longPulseCycleStartMs) % cfg.longPulseCycleMs
        let onTimeMs := fanOnTimeMs cfg s3.targetPct
        if posInCycle < onTimeMs then
          { s3 with currentPct := cfg.minSpeed
                    currentDuty := percentToDuty cfg.minSpeed }
        else
          { s3 with currentPct := 0, currentDuty := 0 }
      else
        let s4 := { s2 with longPulseActive := false }
        let eff := if s4.targetPct < cfg.minSpeed then cfg.minSpeed else s4.targetPct
        { s4 with currentPct := eff, currentDuty := percentToDuty eff }

/-- `FanController::off`. -/
def FanState.off (s : FanState) : FanState :=
  { s with targetPct := 0, kickStartActive := false, longPulseActive := false
           manualMode := false, wasOff := true, currentPct := 0, currentDuty := 0 }

/-- `FanController::isKickStarting`. -/
def FanState.isKickStarting (s : FanState) : Bool :=
  s.kickStartActive

/-- When manual mode is off, no kick-start is running, the controller was
off and the target is positive, `update()` enters kick-start. -/
theorem FanState.update_kickstart_entry (cfg : FanCfg) (s : FanState) (now : ℕ)
    (hman : s.manualMode = false) (hks : s.kickStartActive = false)
    (hwo : s.wasOff = true) (hpos : 0 < s.targetPct) :
    s.update cfg now =
      { s with wasOff := false, kickStartActive := true
               kickStartEndMs := now + cfg.kickstartMs
               kickStartTargetPct := s.targetPct
               currentPct := cfg.kickstartPct
               currentDuty := percentToDuty cfg.kickstartPct } := by
  simp only [FanState.update, hman, hks, Bool.false_eq_true, false_and,
    if_false]
  split_ifs <;>
    first
      | rfl
      | exact absurd (by assumption : s.targetPct ≤ 0) hpos.not_le
      | exact absurd hwo (by assumption)


/-- Claim C3: after `off()` the duty is 0, the kick-start and long-pulse
flags are cleared and manual mode is exited; a following `setSpeed(p)`
with `p > 0` makes the next `update()` enter kick-start: kick-starting
holds, the current speed is `kickstartPct` and the duty is
`percentToDuty(kickstartPct)`. -/
theorem fan_off_then_setSpeed_kickstarts (cfg : FanCfg) (s : FanState)
    (p : ℚ) (hp : 0 < p) (now : ℕ) :
    s.off.currentDuty = 0 ∧ s.off.kickStartActive = false ∧
    s.off.longPulseActive = false ∧ s.off.manualMode = false ∧
    ((s.off.setSpeed p).update cfg now).isKickStarting = true ∧
    ((s.off.setSpeed p).update cfg now).currentPct = cfg.kickstartPct ∧
    ((s.off.setSpeed p).update cfg now).currentDuty =
      percentToDuty cfg.kickstartPct := by
  have hpos : 0 < (s.off.setSpeed p).targetPct := by
    show 0 < if p < 0 then (0 : ℚ) else if 100 < p then 100 else p
    split_ifs with h1 h2 <;> linarith
  have hu := FanState.update_kickstart_entry cfg (s.off.setSpeed p) now rfl rfl
    rfl hpos
  refine ⟨rfl, rfl, rfl, rfl, ?_, ?_, ?_⟩
  · rw [FanState.isKickStarting, hu]
  · rw [hu]
  · rw [hu]

/-- Entering the long-pulse branch with the flag still clear anchors the
cycle at `now` and outputs according to the first cycle position. -/
theorem FanState.update_longpulse_entry (cfg : FanCfg) (s : FanState) (now : ℕ)
    (hman : s.manualMode = false) (hks : s.kickStartActive = false)
    (hwo : s.wasOff = false) (hpos : 0 < s.targetPct)
    (hlt : s.targetPct < cfg.longPulseThreshold)
    (hlp : s.longPulseActive = false) :
    s.update cfg now =
      if (now - now) % cfg.longPulseCycleMs < fanOnTimeMs cfg s.targetPct then
        { s with wasOff := false, longPulseActive := true
                 longPulseCycleStartMs := now
                 currentPct := cfg.minSpeed
                 currentDuty := percentToDuty cfg.minSpeed }
      else
        { s with wasOff := false, longPulseActive := true
                 longPulseCycleStartMs := now, currentPct := 0
                 currentDuty := 0 } := by
  simp only [FanState.update, hman, hks, hlp, Bool.false_eq_true, false_and,
    if_false]
  split_ifs <;>
    first
      | rfl
      | exact absurd (by assumption : s.targetPct ≤ 0) hpos.not_le
      | exact absurd (by assumption : s.wasOff = true) (by simp [hwo])
      | exact absurd hlt (by assumption)

/-- In the long-pulse branch with the flag already set, the anchor is
kept and the output follows the cycle position. -/
theorem FanState.update_longpulse_active (cfg : FanCfg) (s : FanState) (now : ℕ)
    (hman : s.manualMode = false) (hks : s.kickStartActive = false)
    (hwo : s.wasOff = false) (hpos : 0 < s.targetPct)
    (hlt : s.targetPct < cfg.longPulseThreshold)
    (hlp : s.longPulseActive = true) :
    s.update cfg now =
      if (now - s.longPulseCycleStartMs) % cfg.longPulseCycleMs <
          fanOnTimeMs cfg s.targetPct then
        { s with wasOff := false, currentPct := cfg.minSpeed
                 currentDuty := percentToDuty cfg.minSpeed }
      else
        { s with wasOff := false, currentPct := 0, currentDuty := 0 } := by
  simp only [FanState.update, hman, hks, hlp, Bool.false_eq_true, false_and,
    if_false, if_true]
  split_ifs <;>
    first
      | rfl
      | exact absurd (by assumption : s.targetPct ≤ 0) hpos.not_le
      | exact absurd (by assumption : s.wasOff = true) (by simp [hwo])
      | exact absurd hlt (by assumption)

/-- Claim C7: in long-pulse mode (manual off, kick-start finished,
`0 < target < longPulseThreshold`), the cycle start is anchored exactly
once, at the first `update()` that enters long-pulse; every `update()`
computes `e = (now - cycleStart) % longPulseCycleMs` and outputs
`percentToDuty(minSpeed)` when `e` is below the integral on-time
`⌊(target/longPulseThreshold) * longPulseCycleMs⌋` and duty 0
otherwise. -/
theorem fan_long_pulse_anchoring_and_duty (cfg : FanCfg) (s : FanState)
    (now : ℕ) (hman : s.manualMode = false) (hks : s.kickStartActive = false)
    (hwo : s.wasOff = false) (hpos : 0 < s.targetPct)
    (hlt : s.targetPct < cfg.longPulseThreshold) :
    (s.longPulseActive = false →
      (s.update cfg now).longPulseActive = true ∧
      (s.update cfg now).longPulseCycleStartMs = now ∧
      (s.update cfg now).currentDuty =
        (if (now - now) % cfg.longPulseCycleMs < fanOnTimeMs cfg s.targetPct
         then percentToDuty cfg.minSpeed else 0)) ∧
    (s.longPulseActive = true →
      (s.update cfg now).longPulseActive = true ∧
      (s.update cfg now).longPulseCycleStartMs = s.longPulseCycleStartMs ∧
      (s.update cfg now).currentDuty =
        (if (now - s.longPulseCycleStartMs) % cfg.longPulseCycleMs <
            fanOnTimeMs cfg s.targetPct
         then percentToDuty cfg.minSpeed else 0)) := by
  constructor
  · intro hlp
    rw [FanState.update_longpulse_entry cfg s now hman hks hwo hpos hlt hlp]
    split_ifs <;> exact ⟨rfl, rfl, rfl⟩
  · intro hlp
    rw [FanState.update_longpulse_active cfg s now hman hks hwo hpos hlt hlp]
    split_ifs <;> exact ⟨hlp, rfl, rfl⟩

/-- A nominal fan configuration for the witnesses. -/
def fanCfgW : FanCfg :=
  { kickstartPct := 75
    kickstartMs := 3000
    minSpeed := 15
    longPulseThreshold := 10
    longPulseCycleMs := 10000 }

/-- A controller mid-long-pulse: target 5 %, cycle anchored at 2000 ms. -/
def fanStateC7 : FanState :=
  { targetPct := 5
    currentPct := 15
    currentDuty := 38
    kickStartActive := false
    kickStartEndMs := 0
    kickStartTargetPct := 5
    longPulseActive := true
    longPulseCycleStartMs := 2000
    wasOff := false
    manualMode := false }

/-- Witness for claim C7: at 8000 ms, 6000 ms into a 10000 ms cycle with
a 5000 ms on-slice, the duty is 0 and the anchor is kept. -/
theorem fan_long_pulse_anchoring_and_duty_witness :
    (fanStateC7.update fanCfgW 8000).longPulseActive = true ∧
    (fanStateC7.update fanCfgW 8000).longPulseCycleStartMs =
      fanStateC7.longPulseCycleStartMs ∧
    (fanStateC7.update fanCfgW 8000).currentDuty =
      (if (8000 - fanStateC7.longPulseCycleStartMs) % fanCfgW.longPulseCycleMs <
          fanOnTimeMs fanCfgW fanStateC7.targetPct
       then percentToDuty fanCfgW.minSpeed else 0) :=
  (fan_long_pulse_anchoring_and_duty fanCfgW fanStateC7 8000 rfl rfl rfl
    (by norm_num [fanStateC7]) (by norm_num [fanStateC7, fanCfgW])).2 rfl

/-! ## Meat-completion predictor (`temp_predictor.cpp`) -/

/-- `PredictorSample`: epoch seconds (`uint32_t`) and a temperature. -/
structure PredictorSample where
  timestamp : ℕ
  temp : ℚ

/-- A per-probe window (`ProbeWindow`): `PREDICTOR_WINDOW_SIZE = 60`
slots.  The array is modelled as a function; the code only reads indices
below 60. -/
structure ProbeWindow where
  samples : ℕ → PredictorSample
  head : ℕ
  count : ℕ
  target : ℚ

/-- `uint32_t` subtraction `a - b` with wrap-around. -/
def u32sub (a b : ℕ) : ℕ :=
  (a + (2 ^ 32 - b % 2 ^ 32)) % 2 ^ 32

theorem u32sub_self (a : ℕ) : u32sub a a = 0 := by
  unfold u32sub
  omega

/-- `TempPredictor::addSampleInternal` on one window. -/
def ProbeWindow.addSample (w : ProbeWindow) (timestamp : ℕ) (temp : ℚ) :
    ProbeWindow :=
  { w with
    samples := fun i => if i = w.head then ⟨timestamp, temp⟩ else w.samples i
    head := if 60 ≤ w.head + 1 then 0 else w.head + 1
    count := if w.count < 60 then w.count + 1 else w.count }

/-- The oldest stored slot: 0 before the ring wraps, `head` after. -/
def ProbeWindow.oldestIdx (w : ProbeWindow) : ℕ :=
  if w.count < 60 then 0 else w.head

/-- Regression abscissa `x_i = timestamp_i - t0` (uint32 difference from
the oldest sample's timestamp), as used by `computeSlope`. -/
def ProbeWindow.slopeX (w : ProbeWindow) (i : ℕ) : ℚ :=
  (u32sub (w.samples ((w.oldestIdx + i) % 60)).timestamp
    (w.samples w.oldestIdx).timestamp : ℕ)

/-- Regression ordinate `y_i = temperature_i`. -/
def ProbeWindow.slopeY (w : ProbeWindow) (i : ℕ) : ℚ :=
  (w.samples ((w.oldestIdx + i) % 60)).temp

/-- `sum(x)` over the stored window. -/
def ProbeWindow.sumX (w : ProbeWindow) : ℚ :=
  ((List.range w.count).map w.slopeX).sum

/-- `sum(y)` over the stored window. -/
def ProbeWindow.sumY (w : ProbeWindow) : ℚ :=
  ((List.range w.count).map w.slopeY).sum

/-- `sum(x*y)` over the stored window. -/
def ProbeWindow.sumXY (w : ProbeWindow) : ℚ :=
  ((List.range w.count).map (fun i => w.slopeX i * w.slopeY i)).sum

/-- `sum(x^2)` over the stored window. -/
def ProbeWindow.sumX2 (w : ProbeWindow) : ℚ :=
  ((List.range w.count).map (fun i => w.slopeX i * w.slopeX i)).sum

/-- `TempPredictor::computeSlope`: zero below `PREDICTOR_MIN_SAMPLES = 12`
samples, zero on a vanishing denominator, otherwise the least-squares
slope in degrees per second. -/
def ProbeWindow.computeSlope (w : ProbeWindow) : ℚ :=
  if w.count < 12 then 0
  else if (w.count : ℚ) * w.sumX2 - w.sumX * w.sumX = 0 then 0
  else ((w.count : ℚ) * w.sumXY - w.sumX * w.sumY) /
    ((w.count : ℚ) * w.sumX2 - w.sumX * w.sumX)

/-- `TempPredictor::getLatestTemp`. -/
def ProbeWindow.getLatestTemp (w : ProbeWindow) : ℚ :=
  if w.count = 0 then 0
  else (w.samples (if w.head = 0 then 59 else w.head - 1)).temp

/-- `TempPredictor::computeEstTime` with the current epoch supplied by
the clock capability (`getCurrentEpoch`, 0 when time is unavailable);
`PREDICTOR_MAX_PREDICT_SEC = 86400`; the `(uint32_t)` cast truncates the
time-to-target. -/
def ProbeWindow.computeEstTime (w : ProbeWindow) (epoch : ℕ) : ℕ :=
  if w.target ≤ 0 then 0
  else if w.count < 12 then 0
  else if w.target ≤ w.getLatestTemp then 0
  else if w.computeSlope ≤ 0 then 0
  else if 86400 < (w.target - w.getLatestTemp) / w.computeSlope then 0
  else if epoch = 0 then 0
  else epoch + (⌊(w.target - w.getLatestTemp) / w.computeSlope⌋).toNat

/-- All stored timestamps agree with the regression origin `t0`. -/
def ProbeWindow.allTimestampsEqual (w : ProbeWindow) : Prop :=
  ∀ i < w.count,
    (w.samples ((w.oldestIdx + i) % 60)).timestamp =
      (w.samples w.oldestIdx).timestamp

instance (w : ProbeWindow) : Decidable w.allTimestampsEqual :=
  inferInstanceAs (Decidable (∀ i < w.count, _ = _))

theorem ProbeWindow.computeSlope_of_count_lt {w : ProbeWindow}
    (h : w.count < 12) : w.computeSlope = 0 := by
  unfold ProbeWindow.computeSlope
  rw [if_pos h]

theorem ProbeWindow.slopeX_of_allEqual {w : ProbeWindow}
    (hall : w.allTimestampsEqual) {i : ℕ} (hi : i < w.count) :
    w.slopeX i = 0 := by
  unfold ProbeWindow.slopeX
  rw [hall i hi, u32sub_self]
  simp

theorem ProbeWindow.computeSlope_of_allEqual {w : ProbeWindow}
    (hall : w.allTimestampsEqual) : w.computeSlope = 0 := by
  unfold ProbeWindow.computeSlope
  split_ifs with h1 h2
  · rfl
  · rfl
  · exfalso
    apply h2
    have hX : w.sumX = 0 := by
      apply List.sum_eq_zero
      intro x hx
      obtain ⟨i, hi, rfl⟩ := List.mem_map.1 hx
      exact ProbeWindow.slopeX_of_allEqual hall (List.mem_range.1 hi)
    have hX2 : w.sumX2 = 0 := by
      apply List.sum_eq_zero
      intro x hx
      obtain ⟨i, hi, rfl⟩ := List.mem_map.1 hx
      rw [ProbeWindow.slopeX_of_allEqual hall (List.mem_range.1 hi), mul_zero]
    rw [hX, hX2, mul_zero, mul_zero, sub_zero]

/-- Claim C8: the least-squares slope is 0 whenever the window holds
fewer than 12 samples, and whenever all stored timestamps are equal (the
denominator guard `N sum(x^2) - (sum x)^2 = 0` applies). -/
theorem predictor_slope_zero_cases (w : ProbeWindow)
    (h : w.count < 12 ∨ w.allTimestampsEqual) : w.computeSlope = 0 := by
  rcases h with h | h
  · exact ProbeWindow.computeSlope_of_count_lt h
  · exact ProbeWindow.computeSlope_of_allEqual h

/-- A 20-sample window whose timestamps are all 1700000000. -/
def predWindowC8 : ProbeWindow :=
  { samples := fun i => ⟨1700000000, 100 + i⟩
    head := 20
    count := 20
    target := 200 }

/-- Witness for claim C8 on a window of 20 equal-timestamp samples. -/
theorem predictor_slope_zero_cases_witness : predWindowC8.computeSlope = 0 :=
  predictor_slope_zero_cases predWindowC8 (Or.inr (by decide))

/-- Claim C4 (amended): the ETA is 0 whenever the target is unset
(`T <= 0`), or the latest stored temperature is at or above the target,
or the regression slope is not strictly positive, or the projected
time-to-target exceeds 86400 s; otherwise, when a wall-clock epoch is
available (nonzero), the ETA is the epoch plus the time-to-target
`(target - latest)/slope` truncated to whole seconds.  (The unamended
claim overlooks the clock guard: with no valid epoch — `getCurrentEpoch()
= 0` — the code returns 0 even when none of the zero conditions hold; see
the counterexample.) -/
theorem predictor_eta_spec (w : ProbeWindow) (epoch : ℕ) :
    ((w.target ≤ 0 ∨ w.target ≤ w.getLatestTemp ∨ w.computeSlope ≤ 0 ∨
        86400 < (w.target - w.getLatestTemp) / w.computeSlope) →
      w.computeEstTime epoch = 0) ∧
    (0 < w.target → w.getLatestTemp < w.target → 0 < w.computeSlope →
      (w.target - w.getLatestTemp) / w.computeSlope ≤ 86400 → epoch ≠ 0 →
      w.computeEstTime epoch =
        epoch + (⌊(w.target - w.getLatestTemp) / w.computeSlope⌋).toNat) := by
  constructor
  · intro h
    unfold ProbeWindow.computeEstTime
    split_ifs with h1 h2 h3 h4 h5 h6 <;> try rfl
    rcases h with h | h | h | h
    · exact absurd h h1
    · exact absurd h h3
    · exact absurd h h4
    · exact absurd h h5
  · intro ht hl hs htt he
    have hc : ¬w.count < 12 := by
      intro hcc
      rw [ProbeWindow.computeSlope_of_count_lt hcc] at hs
      exact lt_irrefl 0 hs
    unfold ProbeWindow.computeEstTime
    rw [if_neg ht.not_le, if_neg hc, if_neg hl.not_le, if_neg hs.not_le,
      if_neg htt.not_lt, if_neg he]

/-- A 12-sample window rising 1 degree per second: timestamps 0..11,
temperatures 100..111, target 160. -/
def predWindowC4 : ProbeWindow :=
  { samples := fun i => ⟨i, 100 + i⟩
    head := 12
    count := 12
    target := 160 }

theorem predWindowC4_slope : predWindowC4.computeSlope = 1 := by
  norm_num [ProbeWindow.computeSlope, ProbeWindow.sumX, ProbeWindow.sumX2,
    ProbeWindow.sumXY, ProbeWindow.sumY, ProbeWindow.slopeX,
    ProbeWindow.slopeY, ProbeWindow.oldestIdx, predWindowC4, u32sub,
    List.range_succ]

theorem predWindowC4_latest : predWindowC4.getLatestTemp = 111 := by
  norm_num [ProbeWindow.getLatestTemp, predWindowC4]

/-- Claim C4 (counterexample).  On a 12-sample window rising 1 degree/s
toward target 160 (latest 111, slope 1, time-to-target 49 s ≤ 86400 s),
none of the claim's zero conditions holds, yet with the wall clock
unavailable (`getCurrentEpoch() = 0`) `computeEstTime` returns 0 instead
of the claimed `epoch + (target - latest)/slope = 0 + 49`. -/
theorem predictor_eta_epoch_zero_cex :
    ¬(predWindowC4.target ≤ 0) ∧
    predWindowC4.getLatestTemp < predWindowC4.target ∧
    0 < predWindowC4.computeSlope ∧
    (predWindowC4.target - predWindowC4.getLatestTemp) /
      predWindowC4.computeSlope ≤ 86400 ∧
    predWindowC4.computeEstTime 0 = 0 ∧
    0 + (⌊(predWindowC4.target - predWindowC4.getLatestTemp) /
      predWindowC4.computeSlope⌋).toNat = 49 := by
  have ht : predWindowC4.target = 160 := rfl
  have hc : predWindowC4.count = 12 := rfl
  refine ⟨by norm_num [ht], by norm_num [predWindowC4_latest, ht],
    by norm_num [predWindowC4_slope],
    by norm_num [predWindowC4_slope, predWindowC4_latest, ht], ?_,
    by norm_num [predWindowC4_slope, predWindowC4_latest, ht]; rfl⟩
  simp only [ProbeWindow.computeEstTime, predWindowC4_slope,
    predWindowC4_latest, ht, hc]
  norm_num

/-- Witness for the amended claim C4: the same window with the clock at
epoch 1700000000 yields 1700000000 + 49. -/
theorem predictor_eta_spec_witness :
    predWindowC4.computeEstTime 1700000000 =
      1700000000 + (⌊(predWindowC4.target - predWindowC4.getLatestTemp) /
        predWindowC4.computeSlope⌋).toNat := by
  have ht : predWindowC4.target = 160 := rfl
  exact (predictor_eta_spec predWindowC4 1700000000).2
    (by norm_num [ht]) (by norm_num [predWindowC4_latest, ht])
    (by norm_num [predWindowC4_slope])
    (by norm_num [predWindowC4_slope, predWindowC4_latest, ht])
    (by norm_num)

/-! ## Cook-session fixed-point temperature encoding (`cook_session.cpp`) -/

/-- Truncation toward zero, the semantics of C's float-to-integer cast. -/
def ratTrunc (q : ℚ) : ℤ :=
  if q < 0 then ⌈q⌉ else ⌊q⌋

/-- Reduction of an integer into `int16_t` by the C cast's wrap-around. -/
def int16ofInt (z : ℤ) : ℤ :=
  (z + 32768) % 65536 - 32768

/-- `CookSession::update`'s channel encoding
`(int16_t)(temperature * 10.0f)`. -/
def encodeTemp10 (t : ℚ) : ℤ :=
  int16ofInt (ratTrunc (t * 10))

/-- `CookSession::toCSV`'s channel decoding `value / 10.0f`. -/
def decodeTemp10 (v : ℤ) : ℚ :=
  (v : ℚ) / 10

/-- Claim C6 (counterexample): 0.05 lies in [-3276.7, 3276.7] but encodes
to 0 (the ×10 product 0.5 truncates), so the round-trip returns 0, not
0.05.  Only multiples of 0.1 survive the round-trip. -/
theorem temp_roundtrip_cex :
    -3276.7 ≤ (1 / 20 : ℚ) ∧ (1 / 20 : ℚ) ≤ 3276.7 ∧
    decodeTemp10 (encodeTemp10 (1 / 20)) ≠ (1 / 20 : ℚ) := by
  refine ⟨by norm_num, by norm_num, ?_⟩
  norm_num [decodeTemp10, encodeTemp10, ratTrunc, int16ofInt]

/-- Claim C6 (amended): every exact multiple of 0.1 in
[-3276.7, +3276.7] — i.e. `z/10` with `z : ℤ`, `|z| ≤ 32767` — round-trips
through the ×10 int16 encoding unchanged. -/
theorem temp_roundtrip_tenths (z : ℤ) (h1 : -32767 ≤ z) (h2 : z ≤ 32767) :
    decodeTemp10 (encodeTemp10 ((z : ℚ) / 10)) = (z : ℚ) / 10 := by
  unfold encodeTemp10 decodeTemp10 ratTrunc int16ofInt
  have hmul : ((z : ℚ) / 10) * 10 = (z : ℚ) := by
    field_simp
  rw [hmul]
  have htr : (if (z : ℚ) < 0 then ⌈(z : ℚ)⌉ else ⌊(z : ℚ)⌋) = z := by
    split_ifs <;> simp
  rw [htr]
  have hmod : (z + 32768) % 65536 = z + 32768 :=
    Int.emod_eq_of_lt (by omega) (by omega)
  rw [hmod]
  have hz : z + 32768 - 32768 = z := by ring
  rw [hz]

/-- Witness for the amended claim C6 at 225.5 degrees (z = 2255). -/
theorem temp_roundtrip_tenths_witness :
    decodeTemp10 (encodeTemp10 ((2255 : ℤ) / 10 : ℚ)) = ((2255 : ℤ) : ℚ) / 10 := by
  have h := temp_roundtrip_tenths 2255 (by norm_num) (by norm_num)
  norm_num at h ⊢
  exact h

/-! ## Cook-session ring buffer (`cook_session.cpp`) -/

/-- One packed `DataPoint` record. -/
structure DataPoint where
  timestamp : ℕ
  pitTemp : ℤ
  meat1Temp : ℤ
  meat2Temp : ℤ
  fanPct : ℕ
  damperPct : ℕ
  flags : ℕ
deriving DecidableEq

/-- The all-zero point `memset` leaves in fresh buffer slots. -/
def DataPoint.zero : DataPoint :=
  ⟨0, 0, 0, 0, 0, 0, 0⟩

/-- The ring-buffer portion of `CookSession`.  The capacity
`SESSION_BUFFER_SIZE` lives in `config.h` (not among the sources
examined) and is kept as the field `cap`; the buffer array is a
function, written only at `head < cap`. -/
structure Session where
  cap : ℕ
  buffer : ℕ → DataPoint
  head : ℕ
  count : ℕ
  wrapped : Bool
  totalPoints : ℕ

/-- A cleared session (`CookSession::CookSession` / `clear`). -/
def Session.init (K : ℕ) : Session :=
  { cap := K
    buffer := fun _ => DataPoint.zero
    head := 0
    count := 0
    wrapped := false
    totalPoints := 0 }

/-- `CookSession::addPoint`. -/
def Session.addPoint (s : Session) (p : DataPoint) : Session :=
  { s with
    buffer := fun i => if i = s.head then p else s.buffer i
    head := (s.head + 1) % s.cap
    count := if s.count < s.cap then s.count + 1 else s.count
    wrapped := if s.count < s.cap then s.wrapped else true
    totalPoints := s.totalPoints + 1 }

/-- `CookSession::getPoint`: `nullptr` is `none`; a wrapped ring starts
at `head`, an unwrapped one at slot 0. -/
def Session.getPoint (s : Session) (i : ℕ) : Option DataPoint :=
  if s.count ≤ i then none
  else if s.wrapped then some (s.buffer ((s.head + i) % s.cap))
  else some (s.buffer i)

/-- A whole history of `addPoint` calls. -/
def Session.addAll (s : Session) (l : List DataPoint) : Session :=
  l.foldl Session.addPoint s

/-- The ring invariant after adding the points of `l` to a fresh session
of capacity `K`: the fields track `l.length`, and `getPoint i` is exactly
the `i`-th oldest of the `min l.length K` retained points. -/
theorem Session.addAll_inv (K : ℕ) (l : List DataPoint) :
    ((Session.init K).addAll l).cap = K ∧
    ((Session.init K).addAll l).head = l.length % K ∧
    ((Session.init K).addAll l).count = min l.length K ∧
    ((Session.init K).addAll l).wrapped = decide (K < l.length) ∧
    ((Session.init K).addAll l).totalPoints = l.length ∧
    ∀ i : ℕ, ((Session.init K).addAll l).getPoint i =
      if i < min l.length K then l.get? (l.length - min l.length K + i)
      else none := by
  induction l using List.reverseRecOn with
  | nil =>
    refine ⟨rfl, by simp [Session.addAll, Session.init],
      by simp [Session.addAll, Session.init],
      by simp [Session.addAll, Session.init], rfl, ?_⟩
    intro i
    simp [Session.addAll, Session.init, Session.getPoint]
  | append_singleton l p ih =>
    obtain ⟨hcap, hhead, hcount, hwr, htot, hget⟩ := ih
    have hfold : (Session.init K).addAll (l ++ [p]) =
        ((Session.init K).addAll l).addPoint p := by
      unfold Session.addAll
      rw [List.foldl_append]
      rfl
    have hlen : (l ++ [p]).length = l.length + 1 := by simp
    rw [hfold]
    by_cases hfull : l.length < K
    · -- the ring is not yet full: append at slot `l.length`
      have hmin : min l.length K = l.length := by omega
      have hmin' : min (l.length + 1) K = l.length + 1 := by omega
      have hml : l.length % K = l.length := Nat.mod_eq_of_lt hfull
      have hwrf : decide (K < l.length) = false := by
        simp only [decide_eq_false_iff_not]
        omega
      refine ⟨hcap, ?_, ?_, ?_, ?_, ?_⟩
      · simp only [Session.addPoint, hcap, hhead, hlen, Nat.mod_add_mod]
      · simp only [Session.addPoint, hcap, hcount, hlen, hmin, hmin']
        rw [if_pos hfull]
      · simp only [Session.addPoint, hcap, hcount, hwr, hlen, hmin]
        rw [if_pos hfull, hwrf, eq_comm, decide_eq_false_iff_not]
        omega
      · simp only [Session.addPoint, htot, hlen]
      · intro i
        simp only [Session.getPoint, Session.addPoint, hcap, hhead, hcount,
          hwr, hlen, hmin, hmin', hml, hwrf]
        rw [if_pos hfull, if_pos hfull]
        by_cases hi : l.length + 1 ≤ i
        · rw [if_pos hi, if_neg (show ¬i < l.length + 1 by omega)]
        · rw [if_neg hi, if_pos (show i < l.length + 1 by omega),
            if_neg (show ¬(false : Bool) = true by simp)]
          by_cases hip : i = l.length
          · subst hip
            rw [if_pos (show (l.length : ℕ) = l.length from rfl)]
            have hidx : l.length + 1 - (l.length + 1) + l.length = l.length := by
              omega
            rw [hidx, List.get?_concat_length]
          · have hilt : i < l.length := by omega
            rw [if_neg hip]
            have hg := hget i
            rw [hmin, if_pos hilt] at hg
            simp only [Session.getPoint, hcount, hwr, hmin, hwrf] at hg
            rw [if_neg (show ¬l.length ≤ i by omega),
              if_neg (show ¬(false : Bool) = true by simp)] at hg
            have hidx : l.length - l.length + i = i := by omega
            rw [hidx] at hg
            have hidx' : l.length + 1 - (l.length + 1) + i = i := by omega
            rw [hidx', List.get?_append hilt]
            exact hg
    · -- the ring is full: overwrite the oldest slot
      have hKle : K ≤ l.length := by omega
      have hmin : min l.length K = K := by omega
      have hmin' : min (l.length + 1) K = K := by omega
      refine ⟨hcap, ?_, ?_, ?_, ?_, ?_⟩
      · simp only [Session.addPoint, hcap, hhead, hlen, Nat.mod_add_mod]
      · simp only [Session.addPoint, hcap, hcount, hlen, hmin, hmin']
        rw [if_neg (lt_irrefl K)]
      · simp only [Session.addPoint, hcap, hcount, hwr, hlen, hmin]
        rw [if_neg (lt_irrefl K), eq_comm, decide_eq_true_eq]
        omega
      · simp only [Session.addPoint, htot, hlen]
      · intro i
        simp only [Session.getPoint, Session.addPoint, hcap, hhead, hcount,
          hwr, hlen, hmin, hmin']
        rw [if_neg (lt_irrefl K), if_neg (lt_irrefl K)]
        by_cases hi : K ≤ i
        · rw [if_pos hi, if_neg (show ¬i < K by omega)]
        · have hK0 : 0 < K := by omega
          rw [if_neg hi, if_pos (show (true : Bool) = true from rfl),
            if_pos (show i < K by omega)]
          have hj : ((l.length % K + 1) % K + i) % K = (l.length + 1 + i) % K := by
            rw [Nat.mod_add_mod, Nat.add_assoc, Nat.mod_add_mod, ← Nat.add_assoc]
          rw [hj]
          by_cases hlast : i + 1 = K
          · -- the newest point sits where the overwritten oldest one was
            have hj2 : (l.length + 1 + i) % K = l.length % K := by
              have harg : l.length + 1 + i = l.length + K := by omega
              rw [harg, Nat.add_mod_right]
            rw [hj2, if_pos (show l.length % K = l.length % K from rfl)]
            have hidx : l.length + 1 - K + i = l.length := by omega
            rw [hidx, List.get?_concat_length]
          · have hi1 : i + 1 < K := by omega
            have hne : (l.length + 1 + i) % K ≠ l.length % K := by
              intro heq
              have harg : l.length + 1 + i = l.length + (i + 1) := by omega
              rw [harg] at heq
              have hmodeq : l.length + (i + 1) ≡ l.length + 0 [MOD K] := by
                rw [Nat.add_zero]
                exact heq
              have hcancel := Nat.ModEq.add_left_cancel' l.length hmodeq
              have : (i + 1) % K = 0 := by
                simpa [Nat.ModEq] using hcancel
              rw [Nat.mod_eq_of_lt hi1] at this
              omega
            rw [if_neg hne]
            have hg := hget (i + 1)
            rw [hmin, if_pos hi1] at hg
            simp only [Session.getPoint, hcap, hcount, hwr, hhead, hmin] at hg
            rw [if_neg (show ¬K ≤ i + 1 by omega)] at hg
            have hidx : l.length + 1 - K + i = l.length - K + (i + 1) := by omega
            rw [hidx, List.get?_append (by omega)]
            rcases Nat.lt_or_ge K l.length with hKlt | hKge
            · -- the old ring was itself wrapped
              rw [if_pos (by simp [hKlt])] at hg
              have hj3 : (l.length % K + (i + 1)) % K = (l.length + 1 + i) % K := by
                rw [Nat.mod_add_mod]
                congr 1
                omega
              rw [hj3] at hg
              exact hg
            · -- the old ring was exactly full but not yet wrapped
              have hKeq : K = l.length := by omega
              rw [if_neg (by simp only [decide_eq_true_eq]; omega)] at hg
              have hj4 : (l.length + 1 + i) % K = i + 1 := by
                have harg : l.length + 1 + i = K + (i + 1) := by omega
                rw [harg, Nat.add_mod_left, Nat.mod_eq_of_lt hi1]
              rw [hj4]
              exact hg

/-- Claim C5: for every sequence of `addPoint` calls on a fresh ring of
capacity `K`: `count` never exceeds `K`, `totalPoints >= count`,
`getPoint(i)` returns the `i`-th oldest retained point for `0 <= i <
count` (the `totalPoints - count + i`-th point ever added, found through
the wrap-adjusted start index), and `getPoint(i)` is null for
`i >= count`. -/
theorem session_ring_spec (K : ℕ) (hK : 0 < K) (l : List DataPoint) :
    ((Session.init K).addAll l).count ≤ K ∧
    ((Session.init K).addAll l).count ≤ ((Session.init K).addAll l).totalPoints ∧
    (∀ i, i < ((Session.init K).addAll l).count →
      ((Session.init K).addAll l).getPoint i =
        l.get? (((Session.init K).addAll l).totalPoints -
          ((Session.init K).addAll l).count + i)) ∧
    ∀ i, ((Session.init K).addAll l).count ≤ i →
      ((Session.init K).addAll l).getPoint i = none := by
  obtain ⟨hcap, hhead, hcount, hwr, htot, hget⟩ := Session.addAll_inv K l
  refine ⟨by omega, by omega, ?_, ?_⟩
  · intro i hi
    rw [hcount] at hi
    rw [hget i, if_pos hi, hcount, htot]
  · intro i hi
    rw [hcount] at hi
    rw [hget i, if_neg (by omega)]

/-- Five distinguishable data points. -/
def sessionPointsC5 : List DataPoint :=
  [⟨100, 2250, 0, 0, 40, 40, 0⟩, ⟨105, 2260, 0, 0, 40, 40, 0⟩,
   ⟨110, 2270, 0, 0, 40, 40, 0⟩, ⟨115, 2280, 0, 0, 40, 40, 0⟩,
   ⟨120, 2290, 0, 0, 40, 40, 0⟩]

/-- Witness for claim C5: a capacity-3 ring fed 5 points retains points
2, 3, 4; `getPoint 0` is the point numbered 2. -/
theorem session_ring_spec_witness :
    ((Session.init 3).addAll sessionPointsC5).getPoint 0 =
      sessionPointsC5.get?
        (((Session.init 3).addAll sessionPointsC5).totalPoints -
          ((Session.init 3).addAll sessionPointsC5).count + 0) :=
  (session_ring_spec 3 (by decide) sessionPointsC5).2.2.1 0 (by decide)

/-! ## Error manager (`error_manager.cpp`) -/

/-- `ErrorCode` from `error_manager.h`. -/
inductive ErrorCode where
  | none
  | probeOpen
  | probeShort
  | fireOut
  | fanStall
  | wifiLost
deriving DecidableEq

/-- `ErrorEntry`: code, probe index (255 = `0xFF` for non-probe errors)
and message. -/
structure ErrorEntry where
  code : ErrorCode
  probeIndex : ℕ
  message : String
deriving DecidableEq

/-- `ProbeState` from `error_manager.h`. -/
structure ProbeState where
  connected : Bool
  openCircuit : Bool
  shortCircuit : Bool
  temperature : ℚ

/-- Fire-out configuration (`ERROR_FIREOUT_RATE`,
`ERROR_FIREOUT_DURATION_MS` live in `config.h`, not among the sources
examined; kept as parameters). -/
structure ErrorCfg where
  fireOutRate : ℚ
  fireOutDurationMs : ℕ

/-- The `ErrorManager` state; the 10-slot pit history array is a
function, `MAX_ERRORS = 8`. -/
structure ErrorState where
  errors : List ErrorEntry
  pitTempHistory : ℕ → ℚ
  pitHistoryIndex : ℕ
  pitHistoryCount : ℕ
  lastPitSampleMs : ℕ
  declineStartMs : ℕ
  declining : Bool
  lastPitTemp : ℚ
  wifiConnected : Bool

/-- `ErrorManager::errorExists` on an error list. -/
def errorExistsIn (errors : List ErrorEntry) (c : ErrorCode) (idx : ℕ) : Prop :=
  ∃ e ∈ errors, e.code = c ∧ e.probeIndex = idx

instance (errors : List ErrorEntry) (c : ErrorCode) (idx : ℕ) :
    Decidable (errorExistsIn errors c idx) :=
  inferInstanceAs (Decidable (∃ e ∈ errors, _ ∧ _))

/-- `ErrorManager::addError` on an error list: refuse duplicates (on
code and probe index) and overflow beyond 8 entries. -/
def addErrorList (errors : List ErrorEntry) (c : ErrorCode) (idx : ℕ)
    (msg : String) : List ErrorEntry :=
  if errorExistsIn errors c idx then errors
  else if 8 ≤ errors.length then errors
  else errors ++ [⟨c, idx, msg⟩]

/-- `ErrorManager::removeError` on an error list: drop every entry whose
code matches and, unless the probe index argument is `0xFF`, whose probe
index matches too. -/
def removeErrorList (errors : List ErrorEntry) (c : ErrorCode) (idx : ℕ) :
    List ErrorEntry :=
  errors.filter fun e =>
    !(decide (e.code = c) && (decide (idx = 255) || decide (e.probeIndex = idx)))

/-- `ErrorManager::addError`. -/
def ErrorState.addError (s : ErrorState) (c : ErrorCode) (idx : ℕ)
    (msg : String) : ErrorState :=
  { s with errors := addErrorList s.errors c idx msg }

/-- `ErrorManager::removeError`. -/
def ErrorState.removeError (s : ErrorState) (c : ErrorCode) (idx : ℕ) :
    ErrorState :=
  { s with errors := removeErrorList s.errors c idx }

/-- `ErrorManager::hasError`. -/
def ErrorState.hasError (s : ErrorState) (c : ErrorCode) : Prop :=
  ∃ e ∈ s.errors, e.code = c

instance (s : ErrorState) (c : ErrorCode) : Decidable (s.hasError c) :=
  inferInstanceAs (Decidable (∃ e ∈ s.errors, _))

/-- `probeNames[]` from `ErrorManager::update`. -/
def probeName : ℕ → String
  | 0 => "Pit"
  | 1 => "Meat 1"
  | _ => "Meat 2"

/-- One iteration of the probe-error loop in `ErrorManager::update`. -/
def ErrorState.probeStep (s : ErrorState) (i : ℕ) (p : ProbeState) :
    ErrorState :=
  if p.openCircuit = true then
    (s.addError .probeOpen i (probeName i ++ " probe disconnected")).removeError
      .probeShort i
  else if p.shortCircuit = true then
    (s.addError .probeShort i (probeName i ++ " probe shorted")).removeError
      .probeOpen i
  else (s.removeError .probeOpen i).removeError .probeShort i

/-- The probe-error loop over the three probes. -/
def ErrorState.probePhase (s : ErrorState) (probes : ℕ → ProbeState) :
    ErrorState :=
  ((s.probeStep 0 (probes 0)).probeStep 1 (probes 1)).probeStep 2 (probes 2)

/-- The history push of the fire-out block (store the sample, advance the
10-slot ring, saturate the count). -/
def ErrorState.fireStore (s : ErrorState) (pitTemp : ℚ) : ErrorState :=
  { s with
    pitTempHistory := fun j =>
      if j = s.pitHistoryIndex then pitTemp else s.pitTempHistory j
    pitHistoryIndex := (s.pitHistoryIndex + 1) % 10
    pitHistoryCount :=
      if s.pitHistoryCount < 10 then s.pitHistoryCount + 1
      else s.pitHistoryCount }

/-- The decline analysis of the fire-out block: `lastPit` is the previous
minute sample (`_lastPitTemp`). -/
def ErrorState.fireCheck (cfg : ErrorCfg) (s : ErrorState) (now : ℕ)
    (pitTemp fanPct lastPit : ℚ) : ErrorState :=
  if cfg.fireOutRate ≤ lastPit - pitTemp ∧ 95 ≤ fanPct then
    let s4 :=
      if s.declining then s
      else { s with declining := true, declineStartMs := now }
    if cfg.fireOutDurationMs ≤ now - s4.declineStartMs then
      s4.addError .fireOut 255 "Fire may be out"
    else s4
  else
    ({ s with declining := false, declineStartMs := 0 }).removeError .fireOut 255

/-- The fire-out block of `ErrorManager::update` (lines 59-97): gated to
once per minute, store the sample when the pit reads positive, analyse
once at least two samples exist and a previous sample was positive, and
finally record the sample as `_lastPitTemp`. -/
def ErrorState.firePhase (cfg : ErrorCfg) (s : ErrorState) (now : ℕ)
    (pitTemp fanPct : ℚ) : ErrorState :=
  if 60000 ≤ now - s.lastPitSampleMs ∨ s.lastPitSampleMs = 0 then
    if 0 < pitTemp then
      let s2 := ErrorState.fireStore { s with lastPitSampleMs := now } pitTemp
      let s3 :=
        if 2 ≤ s2.pitHistoryCount ∧ 0 < s.lastPitTemp then
          s2.fireCheck cfg now pitTemp fanPct s.lastPitTemp
        else s2
      { s3 with lastPitTemp := pitTemp }
    else { s with lastPitSampleMs := now }
  else s

/-- The WiFi block of `ErrorManager::update`. -/
def ErrorState.wifiPhase (s : ErrorState) : ErrorState :=
  if s.wifiConnected = false then
    s.addError .wifiLost 255 "WiFi connection lost"
  else s.removeError .wifiLost 255

/-- `ErrorManager::update`. -/
def ErrorState.update (cfg : ErrorCfg) (s : ErrorState) (now : ℕ)
    (pitTemp fanPct : ℚ) (probes : ℕ → ProbeState) : ErrorState :=
  ((s.probePhase probes).firePhase cfg now pitTemp fanPct).wifiPhase

/-- The once-per-minute sampling gate of the fire-out detector. -/
def ErrorState.minuteGate (s : ErrorState) (now : ℕ) : Prop :=
  60000 ≤ now - s.lastPitSampleMs ∨ s.lastPitSampleMs = 0

/-! ### Lemmas about the error manager -/

theorem hasError_addError_of {s : ErrorState} {c' : ErrorCode}
    (c : ErrorCode) (idx : ℕ) (msg : String) (h : s.hasError c') :
    (s.addError c idx msg).hasError c' := by
  obtain ⟨e, he, hc⟩ := h
  unfold ErrorState.addError addErrorList
  split_ifs <;> exact ⟨e, by simp [he], hc⟩

theorem hasError_of_addError {s : ErrorState} {c c' : ErrorCode}
    {idx : ℕ} {msg : String}
    (h : (s.addError c idx msg).hasError c') : s.hasError c' ∨ c' = c := by
  unfold ErrorState.addError addErrorList at h
  split_ifs at h with h1 h2
  · exact Or.inl h
  · exact Or.inl h
  · obtain ⟨e, he, hc⟩ := h
    rcases List.mem_append.1 he with hmem | hmem
    · exact Or.inl ⟨e, hmem, hc⟩
    · rw [List.mem_singleton.1 hmem] at hc
      exact Or.inr hc.symm

theorem hasError_of_removeError {s : ErrorState} {c c' : ErrorCode} {idx : ℕ}
    (h : (s.removeError c idx).hasError c') : s.hasError c' := by
  obtain ⟨e, he, hc⟩ := h
  exact ⟨e, (List.mem_filter.1 he).1, hc⟩

theorem hasError_removeError_of_ne {s : ErrorState} {c c' : ErrorCode}
    {idx : ℕ} (hne : c' ≠ c) (h : s.hasError c') :
    (s.removeError c idx).hasError c' := by
  obtain ⟨e, he, hc⟩ := h
  refine ⟨e, List.mem_filter.2 ⟨he, ?_⟩, hc⟩
  simp [hc, hne]

theorem not_hasError_removeError_all {s : ErrorState} {c : ErrorCode} :
    ¬(s.removeError c 255).hasError c := by
  rintro ⟨e, he, hc⟩
  have hp := (List.mem_filter.1 he).2
  simp [hc] at hp

/-- `probeStep` only touches probe-open/short errors. -/
theorem hasError_probeStep_iff (s : ErrorState) (i : ℕ) (p : ProbeState)
    {c' : ErrorCode} (h1 : c' ≠ .probeOpen) (h2 : c' ≠ .probeShort) :
    ((s.probeStep i p).hasError c' ↔ s.hasError c') := by
  unfold ErrorState.probeStep
  constructor
  · intro h
    split_ifs at h
    · rcases hasError_of_addError (hasError_of_removeError h) with h | h
      · exact h
      · exact absurd h h1
    · rcases hasError_of_addError (hasError_of_removeError h) with h | h
      · exact h
      · exact absurd h h2
    · exact hasError_of_removeError (hasError_of_removeError h)
  · intro h
    split_ifs
    · exact hasError_removeError_of_ne h2 (hasError_addError_of _ _ _ h)
    · exact hasError_removeError_of_ne h1 (hasError_addError_of _ _ _ h)
    · exact hasError_removeError_of_ne h2 (hasError_removeError_of_ne h1 h)

theorem hasError_probePhase_iff (s : ErrorState) (probes : ℕ → ProbeState)
    {c' : ErrorCode} (h1 : c' ≠ .probeOpen) (h2 : c' ≠ .probeShort) :
    ((s.probePhase probes).hasError c' ↔ s.hasError c') := by
  unfold ErrorState.probePhase
  rw [hasError_probeStep_iff _ _ _ h1 h2, hasError_probeStep_iff _ _ _ h1 h2,
    hasError_probeStep_iff _ _ _ h1 h2]

theorem hasError_wifiPhase_iff (s : ErrorState) {c' : ErrorCode}
    (h : c' ≠ .wifiLost) : (s.wifiPhase.hasError c' ↔ s.hasError c') := by
  unfold ErrorState.wifiPhase
  split_ifs
  · constructor
    · intro hh
      rcases hasError_of_addError hh with hh | hh
      · exact hh
      · exact absurd hh h
    · exact hasError_addError_of _ _ _
  · exact ⟨hasError_of_removeError, hasError_removeError_of_ne h⟩

@[simp]
theorem ErrorState.probeStep_lastPitSampleMs (s : ErrorState) (i : ℕ)
    (p : ProbeState) : (s.probeStep i p).lastPitSampleMs = s.lastPitSampleMs := by
  unfold ErrorState.probeStep
  split_ifs <;> rfl

@[simp]
theorem ErrorState.probeStep_lastPitTemp (s : ErrorState) (i : ℕ)
    (p : ProbeState) : (s.probeStep i p).lastPitTemp = s.lastPitTemp := by
  unfold ErrorState.probeStep
  split_ifs <;> rfl

@[simp]
theorem ErrorState.probeStep_pitHistoryCount (s : ErrorState) (i : ℕ)
    (p : ProbeState) : (s.probeStep i p).pitHistoryCount = s.pitHistoryCount := by
  unfold ErrorState.probeStep
  split_ifs <;> rfl

@[simp]
theorem ErrorState.probeStep_declining (s : ErrorState) (i : ℕ)
    (p : ProbeState) : (s.probeStep i p).declining = s.declining := by
  unfold ErrorState.probeStep
  split_ifs <;> rfl

@[simp]
theorem ErrorState.probeStep_declineStartMs (s : ErrorState) (i : ℕ)
    (p : ProbeState) : (s.probeStep i p).declineStartMs = s.declineStartMs := by
  unfold ErrorState.probeStep
  split_ifs <;> rfl

@[simp]
theorem ErrorState.probePhase_lastPitSampleMs (s : ErrorState)
    (probes : ℕ → ProbeState) :
    (s.probePhase probes).lastPitSampleMs = s.lastPitSampleMs := by
  unfold ErrorState.probePhase
  simp

@[simp]
theorem ErrorState.probePhase_lastPitTemp (s : ErrorState)
    (probes : ℕ → ProbeState) :
    (s.probePhase probes).lastPitTemp = s.lastPitTemp := by
  unfold ErrorState.probePhase
  simp

@[simp]
theorem ErrorState.probePhase_pitHistoryCount (s : ErrorState)
    (probes : ℕ → ProbeState) :
    (s.probePhase probes).pitHistoryCount = s.pitHistoryCount := by
  unfold ErrorState.probePhase
  simp

@[simp]
theorem ErrorState.probePhase_declining (s : ErrorState)
    (probes : ℕ → ProbeState) :
    (s.probePhase probes).declining = s.declining := by
  unfold ErrorState.probePhase
  simp

@[simp]
theorem ErrorState.probePhase_declineStartMs (s : ErrorState)
    (probes : ℕ → ProbeState) :
    (s.probePhase probes).declineStartMs = s.declineStartMs := by
  unfold ErrorState.probePhase
  simp

@[simp]
theorem ErrorState.wifiPhase_declining (s : ErrorState) :
    s.wifiPhase.declining = s.declining := by
  unfold ErrorState.wifiPhase
  split_ifs <;> rfl

@[simp]
theorem ErrorState.wifiPhase_declineStartMs (s : ErrorState) :
    s.wifiPhase.declineStartMs = s.declineStartMs := by
  unfold ErrorState.wifiPhase
  split_ifs <;> rfl

/-- `fireStore` only touches the history ring. -/
theorem ErrorState.fireStore_pitHistoryCount (s : ErrorState) (t : ℚ) :
    (s.fireStore t).pitHistoryCount =
      if s.pitHistoryCount < 10 then s.pitHistoryCount + 1
      else s.pitHistoryCount := rfl

@[simp]
theorem ErrorState.fireStore_declining (s : ErrorState) (t : ℚ) :
    (s.fireStore t).declining = s.declining := rfl

@[simp]
theorem ErrorState.fireStore_declineStartMs (s : ErrorState) (t : ℚ) :
    (s.fireStore t).declineStartMs = s.declineStartMs := rfl

/-- Claim C9: a FireOut error is added only at a minute-gated fire-out
sample where the pit reads positive, at least one earlier sample exists
with a positive previous reading, the pit has dropped by at least
`fireOutRate` since the previous minute sample while `fanPct >= 95`, and
`now` is at least `fireOutDurationMs` past the decline anchor (the
anchor being `declineStartMs` if already declining, else `now` itself);
and any minute sample (pit positive, rate evaluable) at which the
rate-and-fan condition fails clears the declining flag, zeroes the
anchor, and removes any active FireOut error. -/
theorem error_fireout_sustained_decline_only (cfg : ErrorCfg)
    (s : ErrorState) (now : ℕ) (pitTemp fanPct : ℚ)
    (probes : ℕ → ProbeState) :
    (¬s.hasError .fireOut →
      (s.update cfg now pitTemp fanPct probes).hasError .fireOut →
      s.minuteGate now ∧ 0 < pitTemp ∧ 1 ≤ s.pitHistoryCount ∧
      0 < s.lastPitTemp ∧ cfg.fireOutRate ≤ s.lastPitTemp - pitTemp ∧
      95 ≤ fanPct ∧
      cfg.fireOutDurationMs ≤
        now - (if s.declining = true then s.declineStartMs else now)) ∧
    (s.minuteGate now → 0 < pitTemp → 1 ≤ s.pitHistoryCount →
      0 < s.lastPitTemp →
      ¬(cfg.fireOutRate ≤ s.lastPitTemp - pitTemp ∧ 95 ≤ fanPct) →
      (s.update cfg now pitTemp fanPct probes).declining = false ∧
      (s.update cfg now pitTemp fanPct probes).declineStartMs = 0 ∧
      ¬(s.update cfg now pitTemp fanPct probes).hasError .fireOut) := by
  constructor
  · intro h0 h1
    have h0' : ¬(s.probePhase probes).hasError .fireOut := fun hh =>
      h0 ((hasError_probePhase_iff s probes (by decide) (by decide)).1 hh)
    have h1' : ((s.probePhase probes).firePhase cfg now pitTemp
        fanPct).hasError .fireOut :=
      (hasError_wifiPhase_iff _ (by decide)).1 h1
    simp only [ErrorState.firePhase, ErrorState.fireCheck] at h1'
    split_ifs at h1' with hg hp hc hr hdec hdur hdur
    · -- decline already anchored, duration met: FireOut added here
      refine ⟨?_, hp, ?_, by simpa using hc.2, by simpa using hr.1, hr.2, ?_⟩
      · show 60000 ≤ now - s.lastPitSampleMs ∨ s.lastPitSampleMs = 0
        simpa using hg
      · have hcc := hc.1
        rw [ErrorState.fireStore_pitHistoryCount] at hcc
        simp at hcc
        split_ifs at hcc <;> omega
      · have hdd : s.declining = true := by simpa using hdec
        rw [if_pos hdd]
        simpa using hdur
    · -- duration not met while declining: nothing added
      exact absurd h1' h0'
    · -- decline freshly anchored, duration met (only if duration = 0)
      refine ⟨?_, hp, ?_, by simpa using hc.2, by simpa using hr.1, hr.2, ?_⟩
      · show 60000 ≤ now - s.lastPitSampleMs ∨ s.lastPitSampleMs = 0
        simpa using hg
      · have hcc := hc.1
        rw [ErrorState.fireStore_pitHistoryCount] at hcc
        simp at hcc
        split_ifs at hcc <;> omega
      · have hdd : ¬s.declining = true := by simpa using hdec
        rw [if_neg hdd]
        simpa using hdur
    · -- decline freshly anchored, duration not met
      exact absurd h1' h0'
    · -- rate-and-fan condition failed: FireOut removed, not added
      exact absurd (hasError_of_removeError h1') h0'
    · -- fewer than two samples or no previous reading
      exact absurd h1' h0'
    · -- pit not positive: sample skipped
      exact absurd h1' h0'
    · -- minute gate closed
      exact absurd h1' h0'
  · intro hg hp hc hl hr
    have hg' : 60000 ≤ now - (s.probePhase probes).lastPitSampleMs ∨
        (s.probePhase probes).lastPitSampleMs = 0 := by
      simpa using hg
    have hc' : 2 ≤ (ErrorState.fireStore
        { s.probePhase probes with lastPitSampleMs := now }
        pitTemp).pitHistoryCount ∧ 0 < (s.probePhase probes).lastPitTemp := by
      refine ⟨?_, by simpa using hl⟩
      rw [ErrorState.fireStore_pitHistoryCount]
      have hcnt : ({ s.probePhase probes with
          lastPitSampleMs := now }).pitHistoryCount = s.pitHistoryCount := by
        simp
      rw [hcnt]
      split_ifs <;> omega
    have hr' : ¬(cfg.fireOutRate ≤ (s.probePhase probes).lastPitTemp -
        pitTemp ∧ 95 ≤ fanPct) := by
      simpa using hr
    have hfire : (s.probePhase probes).firePhase cfg now pitTemp fanPct =
        ({ ErrorState.fireStore
            { s.probePhase probes with lastPitSampleMs := now } pitTemp
          with declining := false, declineStartMs := 0,
               lastPitTemp := pitTemp }).removeError .fireOut 255 := by
      simp only [ErrorState.firePhase, ErrorState.fireCheck]
      rw [if_pos hg', if_pos hp, if_pos hc', if_neg hr']
      rfl
    unfold ErrorState.update
    rw [hfire]
    refine ⟨by simp [ErrorState.removeError], by simp [ErrorState.removeError],
      ?_⟩
    intro hh
    exact not_hasError_removeError_all
      ((hasError_wifiPhase_iff _
        (show ErrorCode.fireOut ≠ ErrorCode.wifiLost by decide)).1 hh)


/-- A declining error-manager state with FireOut active, three history
samples and a positive previous reading. -/
def errStateC9 : ErrorState :=
  { errors := [⟨.fireOut, 255, "Fire may be out"⟩]
    pitTempHistory := fun _ => 0
    pitHistoryIndex := 3
    pitHistoryCount := 3
    lastPitSampleMs := 0
    declineStartMs := 100000
    declining := true
    lastPitTemp := 250
    wifiConnected := true }

/-- Witness for claim C9: at a minute sample where the pit dropped only 1
degree (rate 5 required), the declining state, its anchor and the active
FireOut error are all cleared. -/
theorem error_fireout_sustained_decline_only_witness :
    (errStateC9.update ⟨5, 600000⟩ 700000 249 100
      (fun _ => ⟨true, false, false, 0⟩)).declining = false ∧
    (errStateC9.update ⟨5, 600000⟩ 700000 249 100
      (fun _ => ⟨true, false, false, 0⟩)).declineStartMs = 0 ∧
    ¬(errStateC9.update ⟨5, 600000⟩ 700000 249 100
      (fun _ => ⟨true, false, false, 0⟩)).hasError .fireOut :=
  (error_fireout_sustained_decline_only ⟨5, 600000⟩ errStateC9 700000 249 100
      (fun _ => ⟨true, false, false, 0⟩)).2
    (Or.inr rfl) (by norm_num) (by decide)
    (show (0 : ℚ) < 250 by norm_num)
    (show ¬((5 : ℚ) ≤ 250 - 249 ∧ (95 : ℚ) ≤ 100) by norm_num)

/-- Witness for claim C3 at the spec's S1 scenario (`setSpeed 30` from a
fresh controller, nominal configuration). -/
theorem fan_off_then_setSpeed_kickstarts_witness :
    FanState.init.off.currentDuty = 0 ∧
    FanState.init.off.kickStartActive = false ∧
    FanState.init.off.longPulseActive = false ∧
    FanState.init.off.manualMode = false ∧
    ((FanState.init.off.setSpeed 30).update ⟨75, 3000, 15, 10, 10000⟩
      5).isKickStarting = true ∧
    ((FanState.init.off.setSpeed 30).update ⟨75, 3000, 15, 10, 10000⟩
      5).currentPct = (⟨75, 3000, 15, 10, 10000⟩ : FanCfg).kickstartPct ∧
    ((FanState.init.off.setSpeed 30).update ⟨75, 3000, 15, 10, 10000⟩
      5).currentDuty = percentToDuty (⟨75, 3000, 15, 10, 10000⟩ : FanCfg).kickstartPct :=
  fan_off_then_setSpeed_kickstarts ⟨75, 3000, 15, 10, 10000⟩ FanState.init 30
    (by norm_num) 5

end BBQ
